import Mathlib

/-!
Shallow embedding of `src/main/gateway.ts` (`GatewayClient`) from the
clawd-monitor repository.

The TypeScript class owns one WebSocket at a time (field `ws`), a module-level
request counter (`requestId`), a `connected` flag and a reconnect timer handle
(`reconnectTimer`).  Each `call()` registers an extra one-shot `'message'`
listener on the current socket and arms a 30 s timeout; the promise created by
`call()` lives in that closure.  The model makes all of this explicit:

* `WsObj` is one WebSocket object: its `readyState` and its ordered list of
  `'message'` listeners (`Handler.main` is the listener installed by
  `connect()`, `Handler.callH id` the listener installed by `call()` for
  correlation id `id`).  Sockets are identified by their index in `wsStore`;
  replaced sockets keep their listeners, exactly as in Node.
* `CallRec` records one `call()` invocation: its correlation id (none when the
  call was rejected before an id was allocated), the socket its listener was
  attached to, its promise state, and whether its 30 s timeout is still armed.
  Promise settlement is one-shot (`settleIfPending`), as for JS promises.
* `Act` is one reactive turn: an API call, a transport callback (`open`,
  `message`, `error`, `close`) on a given socket, the reconnect timer firing,
  or a call timeout firing.  `step` runs one turn to completion and returns
  the new state plus the observable actions (sends, `emit`s, `console` logs),
  mirroring the single-threaded event-loop semantics of the source.
* A `'message'` delivery iterates a snapshot of the socket's listener list
  (Node's `EventEmitter.emit` iterates over a copy), and is possible while the
  socket is `opened` or `closing` (the `ws` library still dispatches already
  received frames after `close()` was initiated).
* `JSON.parse` failure is `InData.malformed`; a parsed message is a
  `GatewayMessage` with the optional fields of the source interface.
  `new Error(JSON.stringify(response.error))` is modelled as
  `JsError.respErr e`, keeping the structured error itself.
* `Date.now()` is modelled as the constant `dateNow` (its value is irrelevant
  to every property below), `process.platform` as `processPlatform`.
-/

/-- JSON values, the universe for payloads, params and structured errors. -/
inductive Json where
  | null : Json
  | bool (b : Bool) : Json
  | num (n : Int) : Json
  | str (s : String) : Json
  | arr (elems : List Json) : Json
  | obj (fields : List (String × Json)) : Json

/-- JavaScript truthiness of a JSON value. -/
def Json.truthy : Json → Bool
  | .null => false
  | .bool b => b
  | .num n => n != 0
  | .str s => s != ""
  | .arr _ => true
  | .obj _ => true

/-- Property lookup on a JSON object (first binding wins, as in a JS object
literal read). -/
def Json.lookup (j : Json) (key : String) : Option Json :=
  match j with
  | .obj fields =>
    match fields.find? (fun p => p.1 == key) with
    | some p => some p.2
    | none => none
  | _ => none

/-- Wire message, after a successful `JSON.parse`, with the optional fields of
the source's `GatewayMessage` interface.  Absent fields are `none`
(`undefined`). -/
structure GatewayMessage where
  type : Option String := none
  id : Option String := none
  method : Option String := none
  params : Option Json := none
  ok : Option Bool := none
  payload : Option Json := none
  error : Option Json := none
  event : Option String := none
  seq : Option Nat := none
  stateVersion : Option Nat := none

/-- Inbound transport data: either a message that parses as JSON, or data on
which `JSON.parse` throws. -/
inductive InData where
  | malformed : InData
  | msg (m : GatewayMessage) : InData

/-- Normalized event object built by the source's message handler and handed
to `emit` (`GatewayEvent` interface of the source; the source never sets the
optional `event` field). -/
structure GatewayEvent where
  type : String
  event : Option String := none
  payload : Option Json := none
  seq : Option Nat := none
  stateVersion : Option Nat := none
  timestamp : Option Nat := none

/-- Rejection values used by the source.  `errMsg s` is `new Error(s)`;
`respErr e` is `new Error(JSON.stringify(response.error))`, modelled as
carrying the structured error itself; `parseFailure` is the exception thrown
by `JSON.parse` on malformed data. -/
inductive JsError where
  | errMsg (msg : String) : JsError
  | respErr (e : Option Json) : JsError
  | parseFailure : JsError

/-- State of the promise returned by one `call()` invocation.  JS promises
settle at most once; `settleIfPending` below enforces this. -/
inductive PromiseSt where
  | pending : PromiseSt
  | resolved (v : Option Json) : PromiseSt
  | rejected (e : JsError) : PromiseSt

/-- Settle a promise: a no-op when it is already settled. -/
def settleIfPending (p : PromiseSt) (outcome : PromiseSt) : PromiseSt :=
  match p with
  | .pending => outcome
  | q => q

/-- One `'message'` listener on a socket: the listener installed by
`connect()` (`main`) or the per-call listener of the call with the given
correlation id. -/
inductive Handler where
  | main : Handler
  | callH (id : String) : Handler
deriving DecidableEq

/-- WebSocket readyState (`opened` stands for the `OPEN` constant; `open` is a
Lean keyword). -/
inductive ReadyState where
  | connecting : ReadyState
  | opened : ReadyState
  | closing : ReadyState
  | closed : ReadyState
deriving DecidableEq

/-- One WebSocket object: its readyState and its ordered `'message'` listener
list. -/
structure WsObj where
  readyState : ReadyState
  handlers : List Handler

/-- Value of the `reconnectTimer` field together with the timer's own status:
the field is `null` (`noTimer`), or holds a handle whose timeout is still
pending (`pendingT`), or holds a handle whose timeout has already fired
(`firedT`).  The source's callback never clears the field, so after firing
the field keeps the stale handle. -/
inductive TimerSt where
  | noTimer : TimerSt
  | pendingT : TimerSt
  | firedT : TimerSt
deriving DecidableEq

/-- Record of one `call()` invocation.  `cid` is `none` when the call was
rejected before an id was allocated (the not-connected early exit);
`wsIdx` is the socket the per-call listener was attached to;
`timeoutArmed` is true while the call's 30 s timeout has not fired. -/
structure CallRec where
  cid : Option String
  wsIdx : Option Nat
  promise : PromiseSt
  timeoutArmed : Bool

/-- State of one `GatewayClient` plus the module-level `requestId` counter and
the promises created by `call()` (which live in closures in the source).
`wsStore` holds every socket ever created; `ws` is the index of the current
one (`this.ws`), `none` when `this.ws === null`. -/
structure GatewayClient where
  wsStore : List WsObj
  ws : Option Nat
  reconnectTimer : TimerSt
  connected : Bool
  requestId : Nat
  token : Option String
  url : String
  calls : List CallRec

namespace GatewayClient

/-- Fresh client, as built by the constructor. -/
def init (url : String) (token : Option String) : GatewayClient :=
  { wsStore := [], ws := none, reconnectTimer := .noTimer, connected := false,
    requestId := 0, token := token, url := url, calls := [] }

/-- Observable effects of one reactive turn: a frame sent on socket `i`, an
`emit` on the client, or a console log (log arguments beyond the constant
first string are elided). -/
inductive Obs where
  | send (i : Nat) (id : String) (method : String) (params : Json) : Obs
  | emitMessage (e : GatewayEvent) : Obs
  | emitNamed (name : String) (e : GatewayEvent) : Obs
  | emitConnected : Obs
  | emitDisconnected : Obs
  | emitError (e : Json) : Obs
  | logMsg (s : String) : Obs

/-- Update socket `i` in the store, if it exists. -/
def updateWs (store : List WsObj) (i : Nat) (f : WsObj → WsObj) : List WsObj :=
  match store.get? i with
  | some w => store.set i (f w)
  | none => store

/-- Remove the first occurrence of a listener (`EventEmitter.off`). -/
def removeHandler (h : Handler) : List Handler → List Handler
  | [] => []
  | x :: t => if x = h then t else x :: removeHandler h t

/-- Effect of the `ws.close()` method on a socket's readyState (the `'close'`
event itself fires later, as a separate turn). -/
def closeMethod (w : WsObj) : WsObj :=
  match w.readyState with
  | .connecting => { w with readyState := .closing }
  | .opened => { w with readyState := .closing }
  | _ => w

/-- Whether `this.ws?.readyState === WebSocket.OPEN`. -/
def currentOpen (c : GatewayClient) : Bool :=
  match c.ws with
  | some j =>
    match c.wsStore.get? j with
    | some w => w.readyState == .opened
    | none => false
  | none => false

/-- Value of `Date.now()`; irrelevant to every property proved below. -/
def dateNow : Nat := 0

/-- Value of `process.platform`; irrelevant to every property proved below. -/
def processPlatform : String := "linux"

/-- Value of `message.event || 'unknown'` (the empty string is falsy). -/
def jsEventName (e : Option String) : String :=
  match e with
  | some s => if s = "" then "unknown" else s
  | none => "unknown"

/-- Value of `challenge?.nonce || ''` for the challenge payload
`message.payload as { nonce?: string }`: property access on a non-object or a
missing property yields `undefined`, and a falsy nonce is replaced by `''`. -/
def challengeNonce (payload : Option Json) : Json :=
  match payload with
  | some p =>
    match p.lookup "nonce" with
    | some v => if v.truthy then v else .str ""
    | none => .str ""
  | none => .str ""

/-- Params object of the handshake `connect` request (source lines 62–82).
`auth` is present only when the configured token is truthy; `undefined`
fields are omitted by `JSON.stringify`, so absence models them. -/
def connectParams (token : Option String) (nonce : Json) : Json :=
  .obj ([("minProtocol", .num 3), ("maxProtocol", .num 3),
    ("client", .obj [("id", .str "clawd-monitor"),
      ("displayName", .str "Clawd Monitor"),
      ("version", .str "1.0.0"),
      ("platform", .str processPlatform),
      ("mode", .str "operator")]),
    ("role", .str "operator"),
    ("scopes", .arr [.str "operator.read", .str "operator.write"]),
    ("caps", .arr []), ("commands", .arr [])]
    ++ (match token with
        | some t => if t ≠ "" then [("auth", Json.obj [("token", .str t)])] else []
        | none => [])
    ++ [("device", .obj [("nonce", nonce)]),
        ("locale", .str "en-US"),
        ("userAgent", .str "clawd-monitor/1.0.0")])

/-- The private `sendRequest` method: sends one `req` frame on the current
socket when it is open, and otherwise does nothing at all (the id is
allocated inside the guard, so the counter does not advance either). -/
def sendRequest (c : GatewayClient) (method : String) (params : Json) :
    GatewayClient × List Obs :=
  match c.ws with
  | some j =>
    match c.wsStore.get? j with
    | some w =>
      if w.readyState = .opened then
        ({ c with requestId := c.requestId + 1 },
         [Obs.send j ("req-" ++ Nat.repr c.requestId) method params])
      else (c, [])
    | none => (c, [])
  | none => (c, [])

/-- The `ws.close()` call performed on the current socket by the failed
handshake branch (`this.ws?.close()`). -/
def closeCurrentWs (c : GatewayClient) : GatewayClient :=
  match c.ws with
  | some j => { c with wsStore := updateWs c.wsStore j closeMethod }
  | none => c

/-- Body of the `'message'` listener installed by `connect()` (source lines
52–111): challenge handling, generic event fan-out, handshake response
handling, and the catch-all for `JSON.parse` failures. -/
def processMain (c : GatewayClient) (d : InData) : GatewayClient × List Obs :=
  match d with
  | .malformed => (c, [Obs.logMsg "Failed to parse Gateway message:"])
  | .msg m =>
    let lg := Obs.logMsg "Gateway message:"
    if m.type = some "event" then
      if m.event = some "connect.challenge" then
        let pr := sendRequest c "connect"
          (connectParams c.token (challengeNonce m.payload))
        (pr.1, lg :: Obs.logMsg "Received challenge, sending connect with nonce..." :: pr.2)
      else
        let ev : GatewayEvent :=
          { type := jsEventName m.event, payload := m.payload, seq := m.seq,
            stateVersion := m.stateVersion, timestamp := some dateNow }
        (c, [lg, Obs.emitMessage ev, Obs.emitNamed (jsEventName m.event) ev])
    else if m.type = some "res" then
      if m.method = some "connect" then
        if m.ok = some true then
          ({ c with connected := true },
           [lg, Obs.logMsg "Gateway handshake successful", Obs.emitConnected])
        else
          (closeCurrentWs c, [lg, Obs.logMsg "Gateway handshake failed:"])
      else (c, [lg])
    else (c, [lg])

/-- Settle the promise of the call with the given correlation id (no-op on an
already settled promise). -/
def settleCall (calls : List CallRec) (id : String) (outcome : PromiseSt) :
    List CallRec :=
  calls.map fun r =>
    if r.cid = some id then { r with promise := settleIfPending r.promise outcome }
    else r

/-- The `this.ws?.off('message', handler)` performed by a per-call listener:
removes that listener from the current socket (which, after a reconnect, may
differ from the socket it was attached to). -/
def offCurrent (c : GatewayClient) (id : String) : GatewayClient :=
  match c.ws with
  | some j =>
    { c with wsStore := updateWs c.wsStore j (fun w => { w with handlers := removeHandler (Handler.callH id) w.handlers }) }
  | none => c

/-- Body of the per-call `'message'` listener registered by `call()` (source
lines 179–194) for the call with correlation id `id`: it re-parses the data,
settles its own promise on a matching response, and on a parse failure removes
itself and rejects with the parse error. -/
def processCall (c : GatewayClient) (id : String) (d : InData) : GatewayClient :=
  match d with
  | .malformed =>
    let c1 := offCurrent c id
    { c1 with calls := settleCall c1.calls id (.rejected .parseFailure) }
  | .msg m =>
    if m.type = some "res" ∧ m.id = some id then
      let c1 := offCurrent c id
      if m.ok = some true then
        { c1 with calls := settleCall c1.calls id (.resolved m.payload) }
      else
        { c1 with calls := settleCall c1.calls id (.rejected (.respErr m.error)) }
    else c

/-- Run one listener on delivered data. -/
def processHandler (c : GatewayClient) (h : Handler) (d : InData) :
    GatewayClient × List Obs :=
  match h with
  | .main => processMain c d
  | .callH id => (processCall c id d, [])

/-- Run a snapshot of a socket's listener list in order (Node's
`EventEmitter.emit` iterates over a copy of the listener array, so listeners
removed during the emission still run). -/
def runHandlers (c : GatewayClient) (hs : List Handler) (d : InData) :
    GatewayClient × List Obs :=
  match hs with
  | [] => (c, [])
  | h :: t =>
    let pr := processHandler c h d
    let rest := runHandlers pr.1 t d
    (rest.1, pr.2 ++ rest.2)

/-- A `'message'` event on socket `i`.  The `ws` library can still dispatch
already received frames after `close()` was initiated, so delivery is
possible while `opened` or `closing`; a `closed` socket delivers nothing. -/
def deliver (c : GatewayClient) (i : Nat) (d : InData) :
    GatewayClient × List Obs :=
  match c.wsStore.get? i with
  | some w =>
    if w.readyState = .opened ∨ w.readyState = .closing then
      runHandlers c w.handlers d
    else (c, [])
  | none => (c, [])

/-- The public `connect()` method: a no-op when the current socket is open,
otherwise it creates a fresh socket (readyState `CONNECTING`) carrying the
`main` listener and makes it current. -/
def connect (c : GatewayClient) : GatewayClient × List Obs :=
  if currentOpen c then (c, [])
  else
    ({ c with
        wsStore := c.wsStore ++ [{ readyState := .connecting, handlers := [Handler.main] }],
        ws := some c.wsStore.length }, [])

/-- The private `scheduleReconnect`: schedules a timer only when the
`reconnectTimer` field is `null` — a stale fired handle also suppresses
scheduling, because the field still holds it. -/
def scheduleReconnect (c : GatewayClient) : GatewayClient :=
  match c.reconnectTimer with
  | .noTimer => { c with reconnectTimer := .pendingT }
  | _ => c

/-- The public `disconnect()` method: clears the timer handle, calls
`close()` on the current socket if any and forgets it, and drops the
`connected` flag. -/
def disconnect (c : GatewayClient) : GatewayClient :=
  let c1 : GatewayClient := { c with reconnectTimer := .noTimer }
  match c1.ws with
  | some j =>
    { c1 with wsStore := updateWs c1.wsStore j closeMethod, ws := none, connected := false }
  | none => { c1 with connected := false }

/-- The public `isConnected()`:
`this.connected && this.ws?.readyState === WebSocket.OPEN`. -/
def isConnected (c : GatewayClient) : Bool :=
  c.connected && currentOpen c

/-- Correlation id allocated by `call()` at counter value `n`:
`` `call-${requestId++}` ``. -/
def callIdStr (n : Nat) : String :=
  "call-" ++ Nat.repr n

/-- The public `call()` method, synchronous part: the not-connected early
rejection, or id allocation, listener registration on the current socket,
send, and arming of the 30 s timeout. -/
def call (c : GatewayClient) (method : String) (params : Json) :
    GatewayClient × List Obs :=
  if ¬ isConnected c then
    ({ c with calls := c.calls ++
        [{ cid := none, wsIdx := none,
           promise := .rejected (.errMsg "Not connected to Gateway"),
           timeoutArmed := false }] }, [])
  else
    match c.ws with
    | some j =>
      let id := callIdStr c.requestId
      ({ c with
          requestId := c.requestId + 1,
          wsStore := updateWs c.wsStore j
            (fun w => { w with handlers := w.handlers ++ [Handler.callH id] }),
          calls := c.calls ++
            [{ cid := some id, wsIdx := some j, promise := .pending,
               timeoutArmed := true }] },
       [Obs.send j id method params])
    | none => (c, [])

/-- The `'close'` event on socket `i` (source lines 118–123): possible on any
not-yet-closed socket; the handler drops the `connected` flag, emits
`disconnected` and calls `scheduleReconnect`.  It runs for every socket ever
created by `connect()`, current or not. -/
def closeEvent (c : GatewayClient) (i : Nat) : GatewayClient × List Obs :=
  match c.wsStore.get? i with
  | some w =>
    if w.readyState = .closed then (c, [])
    else
      let c1 := { c with
        wsStore := updateWs c.wsStore i (fun w => { w with readyState := .closed }) }
      let c2 := scheduleReconnect { c1 with connected := false }
      (c2, [Obs.logMsg "Gateway disconnected", Obs.emitDisconnected])
  | none => (c, [])

/-- The `'open'` event on socket `i`: the socket becomes OPEN; the handler
only logs. -/
def openEvent (c : GatewayClient) (i : Nat) : GatewayClient × List Obs :=
  match c.wsStore.get? i with
  | some w =>
    if w.readyState = .connecting then
      ({ c with wsStore := updateWs c.wsStore i (fun w => { w with readyState := .opened }) },
       [Obs.logMsg "Gateway WebSocket connected, waiting for challenge..."])
    else (c, [])
  | none => (c, [])

/-- The `'error'` event on socket `i`: the handler logs and re-emits the
error; the readyState is untouched (a close, if any, is a separate event). -/
def errorEvent (c : GatewayClient) (i : Nat) (e : Json) :
    GatewayClient × List Obs :=
  match c.wsStore.get? i with
  | some w =>
    if w.readyState = .closed then (c, [])
    else (c, [Obs.logMsg "Gateway error:", Obs.emitError e])
  | none => (c, [])

/-- The reconnect timer firing: only a pending timer can fire; the callback
calls `connect()` but never clears `this.reconnectTimer`, so the field keeps
the now-stale handle (`firedT`). -/
def reconnectFire (c : GatewayClient) : GatewayClient × List Obs :=
  match c.reconnectTimer with
  | .pendingT =>
    let pr := connect { c with reconnectTimer := .firedT }
    (pr.1, Obs.logMsg "Attempting to reconnect to Gateway..." :: pr.2)
  | _ => (c, [])

/-- The 30 s timeout of the `k`-th `call()` firing (source lines 200–203):
it removes the per-call listener from the current socket and rejects the
promise (a no-op if already settled); it fires at most once. -/
def timeoutFire (c : GatewayClient) (k : Nat) : GatewayClient :=
  match c.calls.get? k with
  | some r =>
    if r.timeoutArmed then
      let c1 :=
        match r.cid with
        | some id => offCurrent c id
        | none => c
      { c1 with calls := c1.calls.set k { r with promise := settleIfPending r.promise (.rejected (.errMsg "Gateway call timeout")), timeoutArmed := false } }
    else c
  | none => c

/-- One reactive turn: an API invocation, a transport callback, or a timer
firing. -/
inductive Act where
  | apiConnect : Act
  | apiDisconnect : Act
  | apiCall (method : String) (params : Json) : Act
  | wsOpen (i : Nat) : Act
  | wsDeliver (i : Nat) (d : InData) : Act
  | wsError (i : Nat) (e : Json) : Act
  | wsClose (i : Nat) : Act
  | reconnectTimerFire : Act
  | callTimeout (k : Nat) : Act

/-- Run one reactive turn to completion. -/
def step (c : GatewayClient) (a : Act) : GatewayClient × List Obs :=
  match a with
  | .apiConnect => connect c
  | .apiDisconnect => (disconnect c, [])
  | .apiCall m p => call c m p
  | .wsOpen i => openEvent c i
  | .wsDeliver i d => deliver c i d
  | .wsError i e => errorEvent c i e
  | .wsClose i => closeEvent c i
  | .reconnectTimerFire => reconnectFire c
  | .callTimeout k => (timeoutFire c k, [])

/-- Run a sequence of reactive turns, collecting the observables. -/
def run (c : GatewayClient) (acts : List Act) : GatewayClient × List Obs :=
  match acts with
  | [] => (c, [])
  | a :: t =>
    let pr := step c a
    let rest := run pr.1 t
    (rest.1, pr.2 ++ rest.2)

/-- Number of `connected` emissions in an observation list. -/
def cntConnected (os : List Obs) : Nat :=
  (os.filter fun o => match o with | .emitConnected => true | _ => false).length

/-- Number of `disconnected` emissions in an observation list. -/
def cntDisconnected (os : List Obs) : Nat :=
  (os.filter fun o => match o with | .emitDisconnected => true | _ => false).length

/-- Number of `error` emissions in an observation list. -/
def cntError (os : List Obs) : Nat :=
  (os.filter fun o => match o with | .emitError _ => true | _ => false).length

/-- Number of frames sent on the wire in an observation list. -/
def cntSends (os : List Obs) : Nat :=
  (os.filter fun o => match o with | .send _ _ _ _ => true | _ => false).length

/-- Number of fan-out emissions (the generic `message` channel or a named
event channel) in an observation list. -/
def cntForwards (os : List Obs) : Nat :=
  (os.filter fun o =>
    match o with | .emitMessage _ => true | .emitNamed _ _ => true | _ => false).length

/-- The sends of an observation list, as `(socket, id, method, params)`
tuples. -/
def sendsOf (os : List Obs) : List (Nat × String × String × Json) :=
  os.filterMap fun o =>
    match o with
    | .send i id m p => some (i, id, m, p)
    | _ => none

/-- The readyState of socket `i`, if it exists. -/
def wsState (c : GatewayClient) (i : Nat) : Option ReadyState :=
  (c.wsStore.get? i).map WsObj.readyState

end GatewayClient

/-- Whether a promise is still unsettled. -/
def PromiseSt.isPending : PromiseSt → Bool
  | .pending => true
  | _ => false

/-- Whether a promise is settled (resolved or rejected). -/
def PromiseSt.isSettled : PromiseSt → Bool
  | .pending => false
  | _ => true

/-- Whether a promise was rejected with `new Error(msg)` for the given
message. -/
def PromiseSt.isRejectedMsg (p : PromiseSt) (msg : String) : Bool :=
  match p with
  | .rejected (.errMsg s) => s == msg
  | _ => false

/-- Whether a promise was rejected with the `JSON.parse` exception. -/
def PromiseSt.isParseRejected : PromiseSt → Bool
  | .rejected .parseFailure => true
  | _ => false

/-- Decimal digit list of a natural number, most significant digit first
(reference rendering used to reason about `Nat.repr`). -/
def decDigits (n : Nat) : List Char :=
  if n < 10 then [Nat.digitChar n]
  else decDigits (n / 10) ++ [Nat.digitChar (n % 10)]
termination_by n
decreasing_by exact Nat.div_lt_self (by omega) (by omega)

/-- Numeric value of a decimal digit character. -/
def digitVal (ch : Char) : Nat :=
  if ch = '0' then 0 else if ch = '1' then 1 else if ch = '2' then 2 else
  if ch = '3' then 3 else if ch = '4' then 4 else if ch = '5' then 5 else
  if ch = '6' then 6 else if ch = '7' then 7 else if ch = '8' then 8 else
  if ch = '9' then 9 else 0

/-- Value of a decimal digit list, most significant digit first. -/
def valDigits (ds : List Char) : Nat :=
  ds.foldl (fun a ch => a * 10 + digitVal ch) 0

/-- Correlation ids of the calls of a client (in order of issue). -/
def GatewayClient.cids (c : GatewayClient) : List String :=
  c.calls.filterMap CallRec.cid

/-- Correlation-id well-formedness: every allocated id comes from a counter
value below the current counter, and ids are pairwise distinct. -/
def GatewayClient.CidInv (c : GatewayClient) : Prop :=
  (∀ s ∈ c.cids, ∃ n, n < c.requestId ∧ s = GatewayClient.callIdStr n) ∧
    c.cids.Pairwise (· ≠ ·)

/-- Legal one-step evolution of a promise: an already settled promise can
only stay exactly as it is (one-shot settlement). -/
def PromEvolve (p q : PromiseSt) : Prop :=
  q = settleIfPending p q

namespace GatewayClient

/-- The `device.nonce` string carried by a `connect` request's params, if
any. -/
def nonceStrOf (p : Json) : Option String :=
  match p.lookup "device" with
  | some d =>
    match d.lookup "nonce" with
    | some (.str s) => some s
    | _ => none
  | none => none

/-- Client with the default constructor arguments, used by the concrete
scenarios below. -/
def demoClient : GatewayClient :=
  init "ws://127.0.0.1:18789" none

/-- A `connect.challenge` event carrying the nonce `"abc"`. -/
def challengeMsg : InData :=
  .msg { type := some "event", event := some "connect.challenge",
         payload := some (.obj [("nonce", .str "abc")]) }

/-- A successful handshake response. -/
def okConnectRes : InData :=
  .msg { type := some "res", method := some "connect", ok := some true }

/-- A failed handshake response carrying a structured error. -/
def badConnectRes : InData :=
  .msg { type := some "res", method := some "connect", ok := some false,
         error := some (.str "denied") }

/-- Open the socket, answer the challenge, receive the successful handshake
response: afterwards the client is Ready. -/
def readyTrace : List Act :=
  [.apiConnect, .wsOpen 0, .wsDeliver 0 challengeMsg, .wsDeliver 0 okConnectRes]

/-- Ready, then a `call()` is issued (allocating id `call-1`), then the
transport closes with the call still pending. -/
def traceClosePending : List Act :=
  readyTrace ++ [.apiCall "agent.send" .null, .wsClose 0]

/-- Connect, open, `disconnect()`, then the close event caused by the
`disconnect()` arrives. -/
def traceDisconnectClose : List Act :=
  [.apiConnect, .wsOpen 0, .apiDisconnect, .wsClose 0]

/-- Connect, open, unexpected close (schedules the reconnect timer), timer
fires (reconnects), socket 1 opens, socket 1 closes unexpectedly. -/
def traceStaleTimer : List Act :=
  [.apiConnect, .wsOpen 0, .wsClose 0, .reconnectTimerFire, .wsOpen 1, .wsClose 1]

/-- Ready, a `call()` pending, then a malformed frame arrives. -/
def traceMalformed : List Act :=
  readyTrace ++ [.apiCall "agent.send" .null, .wsDeliver 0 .malformed]

/-- Open and challenge answered, then the gateway rejects the handshake. -/
def traceBadHandshake : List Act :=
  [.apiConnect, .wsOpen 0, .wsDeliver 0 challengeMsg, .wsDeliver 0 badConnectRes]

/-- A full successful handshake followed by a duplicate successful `connect`
response. -/
def traceDupConnect : List Act :=
  readyTrace ++ [.wsDeliver 0 okConnectRes]

/-- Connect, open, `disconnect()` (so `this.ws` is `null`), then an already
received challenge frame is still dispatched on the old socket. -/
def traceChallengeDropped : List Act :=
  [.apiConnect, .wsOpen 0, .apiDisconnect, .wsDeliver 0 challengeMsg]

/-- Response to the call with id `call-1`, payload `"A"`. -/
def respA : InData :=
  .msg { type := some "res", id := some "call-1", ok := some true,
         payload := some (.str "A") }

/-- Response to the call with id `call-2`, payload `"B"`. -/
def respB : InData :=
  .msg { type := some "res", id := some "call-2", ok := some true,
         payload := some (.str "B") }

/-- Ready, two concurrent calls (`call-1`, `call-2`), then the responses
arrive out of order (`call-2`'s answer first). -/
def traceOutOfOrder : List Act :=
  readyTrace ++ [.apiCall "a" .null, .apiCall "b" .null,
    .wsDeliver 0 respB, .wsDeliver 0 respA]

/-- Ready with one pending `call()` (id `call-1`). -/
def tracePendingCall : List Act :=
  readyTrace ++ [.apiCall "agent.send" .null]

end GatewayClient

/-! ### Arithmetic facts about decimal rendering

`Nat.repr` is injective, hence distinct counter values yield distinct
correlation ids. -/

theorem digitVal_digitChar (n : Nat) (h : n < 10) : digitVal (Nat.digitChar n) = n := by
  interval_cases n <;> rfl

theorem toDigitsCore_eq (f : Nat) : ∀ n ds, n < f →
    Nat.toDigitsCore 10 f n ds = decDigits n ++ ds := by
  induction f with
  | zero => intro n ds h; omega
  | succ f ih =>
    intro n ds h
    rw [Nat.toDigitsCore]
    by_cases h10 : n / 10 = 0
    · have hlt : n < 10 := by omega
      have hmod : n % 10 = n := Nat.mod_eq_of_lt hlt
      simp only [h10, if_pos]
      rw [decDigits, if_pos hlt, hmod]
      rfl
    · have hgt : n / 10 < f := by
        have h1 : n / 10 < n := Nat.div_lt_self (by omega) (by omega)
        omega
      rw [if_neg h10, ih (n / 10) _ hgt]
      conv_rhs => rw [decDigits, if_neg (by omega : ¬ n < 10)]
      simp

theorem valDigits_decDigits (n : Nat) : valDigits (decDigits n) = n := by
  induction n using Nat.strong_induction_on with
  | _ n ih =>
    rw [decDigits]
    by_cases h : n < 10
    · rw [if_pos h]
      simp [valDigits, digitVal_digitChar n h]
    · rw [if_neg h]
      have h1 : n / 10 < n := Nat.div_lt_self (by omega) (by omega)
      have ihv := ih (n / 10) h1
      simp only [valDigits, List.foldl_append] at ihv ⊢
      rw [ihv]
      simp [digitVal_digitChar (n % 10) (by omega)]
      omega

theorem decDigits_injective : Function.Injective decDigits := by
  intro a b h
  have := congrArg valDigits h
  simpa [valDigits_decDigits] using this

theorem repr_injective : Function.Injective Nat.repr := by
  intro a b h
  apply decDigits_injective
  have ha : Nat.repr a = (decDigits a).asString := by
    rw [Nat.repr, Nat.toDigits, toDigitsCore_eq (a + 1) a [] (by omega)]
    simp
  have hb : Nat.repr b = (decDigits b).asString := by
    rw [Nat.repr, Nat.toDigits, toDigitsCore_eq (b + 1) b [] (by omega)]
    simp
  rw [ha, hb] at h
  have hdata := congrArg String.data h
  simpa [List.asString] using hdata

theorem callIdStr_injective : Function.Injective GatewayClient.callIdStr := by
  intro a b h
  apply repr_injective
  have hdata := congrArg String.data h
  simp only [GatewayClient.callIdStr, String.data_append] at hdata
  have := List.append_cancel_left hdata
  exact String.ext this ▸ rfl

/-! ### Basic characterizations of the model's operations -/

namespace GatewayClient

theorem updateWs_get? (store : List WsObj) (i j : Nat) (f : WsObj → WsObj) :
    (updateWs store i f).get? j = if j = i then (store.get? i).map f else store.get? j := by
  unfold updateWs
  cases hg : store.get? i with
  | none =>
    by_cases hij : j = i
    · subst hij; rw [if_pos rfl, hg]; rfl
    · simp [hij]
  | some w =>
    have hi : i < store.length := by
      rw [List.get?_eq_getElem?] at hg
      exact (List.getElem?_eq_some.mp hg).1
    by_cases hij : j = i
    · subst hij
      simp only [List.get?_eq_getElem?] at hg ⊢
      simp [List.getElem?_set_self hi, hg]
    · simp only [List.get?_eq_getElem?]
      simp [List.getElem?_set_ne (fun h => hij h.symm), hij]

theorem sendRequest_fst (c : GatewayClient) (m : String) (p : Json) :
    (sendRequest c m p).1 =
      if currentOpen c then { c with requestId := c.requestId + 1 } else c := by
  unfold sendRequest currentOpen
  cases c.ws with
  | none => simp
  | some j =>
    cases hw : c.wsStore[j]? with
    | none => simp [hw]
    | some w =>
      by_cases h : w.readyState = .opened <;> simp [hw, h, beq_iff_eq]

theorem sendRequest_snd (c : GatewayClient) (m : String) (p : Json) :
    (sendRequest c m p).2 =
      if currentOpen c then
        [Obs.send (c.ws.getD 0) ("req-" ++ Nat.repr c.requestId) m p]
      else [] := by
  unfold sendRequest currentOpen
  cases c.ws with
  | none => simp
  | some j =>
    cases hw : c.wsStore[j]? with
    | none => simp [hw]
    | some w =>
      by_cases h : w.readyState = .opened <;> simp [hw, h, beq_iff_eq]

theorem sendRequest_not_open (c : GatewayClient) (m : String) (p : Json)
    (h : currentOpen c = false) : sendRequest c m p = (c, []) := by
  have h1 := sendRequest_fst c m p
  have h2 := sendRequest_snd c m p
  rw [h] at h1 h2
  simp only [Bool.false_eq_true, if_false] at h1 h2
  exact Prod.ext h1 h2

theorem sendRequest_calls (c : GatewayClient) (m : String) (p : Json) :
    (sendRequest c m p).1.calls = c.calls := by
  rw [sendRequest_fst]; split <;> rfl

theorem sendRequest_ws (c : GatewayClient) (m : String) (p : Json) :
    (sendRequest c m p).1.ws = c.ws := by
  rw [sendRequest_fst]; split <;> rfl

theorem sendRequest_wsStore (c : GatewayClient) (m : String) (p : Json) :
    (sendRequest c m p).1.wsStore = c.wsStore := by
  rw [sendRequest_fst]; split <;> rfl

theorem sendRequest_connected (c : GatewayClient) (m : String) (p : Json) :
    (sendRequest c m p).1.connected = c.connected := by
  rw [sendRequest_fst]; split <;> rfl

theorem sendRequest_reconnectTimer (c : GatewayClient) (m : String) (p : Json) :
    (sendRequest c m p).1.reconnectTimer = c.reconnectTimer := by
  rw [sendRequest_fst]; split <;> rfl

theorem sendRequest_requestId_mono (c : GatewayClient) (m : String) (p : Json) :
    c.requestId ≤ (sendRequest c m p).1.requestId := by
  rw [sendRequest_fst]; split
  · exact Nat.le_succ _
  · exact Nat.le_refl _

theorem closeCurrentWs_calls (c : GatewayClient) : (closeCurrentWs c).calls = c.calls := by
  unfold closeCurrentWs; cases h : c.ws <;> simp [h]

theorem closeCurrentWs_connected (c : GatewayClient) :
    (closeCurrentWs c).connected = c.connected := by
  unfold closeCurrentWs; cases h : c.ws <;> simp [h]

theorem closeCurrentWs_reconnectTimer (c : GatewayClient) :
    (closeCurrentWs c).reconnectTimer = c.reconnectTimer := by
  unfold closeCurrentWs; cases h : c.ws <;> simp [h]

theorem closeCurrentWs_ws (c : GatewayClient) : (closeCurrentWs c).ws = c.ws := by
  unfold closeCurrentWs; cases h : c.ws <;> simp [h]

theorem closeCurrentWs_requestId (c : GatewayClient) :
    (closeCurrentWs c).requestId = c.requestId := by
  unfold closeCurrentWs; cases h : c.ws <;> simp [h]

theorem closeCurrentWs_wsState_current (c : GatewayClient) (j : Nat)
    (h : c.ws = some j) (ho : wsState c j = some .opened) :
    wsState (closeCurrentWs c) j = some .closing := by
  unfold closeCurrentWs
  rw [h]
  show ((updateWs c.wsStore j closeMethod).get? j).map WsObj.readyState = some .closing
  rw [updateWs_get?, if_pos rfl]
  unfold wsState at ho
  cases hg : c.wsStore.get? j with
  | none => rw [hg] at ho; simp at ho
  | some w =>
    rw [hg] at ho
    simp at ho
    simp [closeMethod, ho]

theorem offCurrent_calls (c : GatewayClient) (id : String) :
    (offCurrent c id).calls = c.calls := by
  unfold offCurrent; cases h : c.ws <;> simp [h]

theorem offCurrent_connected (c : GatewayClient) (id : String) :
    (offCurrent c id).connected = c.connected := by
  unfold offCurrent; cases h : c.ws <;> simp [h]

theorem offCurrent_reconnectTimer (c : GatewayClient) (id : String) :
    (offCurrent c id).reconnectTimer = c.reconnectTimer := by
  unfold offCurrent; cases h : c.ws <;> simp [h]

theorem offCurrent_ws (c : GatewayClient) (id : String) :
    (offCurrent c id).ws = c.ws := by
  unfold offCurrent; cases h : c.ws <;> simp [h]

theorem offCurrent_requestId (c : GatewayClient) (id : String) :
    (offCurrent c id).requestId = c.requestId := by
  unfold offCurrent; cases h : c.ws <;> simp [h]

theorem offCurrent_wsState (c : GatewayClient) (id : String) (j : Nat) :
    wsState (offCurrent c id) j = wsState c j := by
  unfold offCurrent
  cases h : c.ws with
  | none => simp [h]
  | some k =>
    show ((updateWs c.wsStore k _).get? j).map WsObj.readyState = wsState c j
    rw [updateWs_get?]
    by_cases hjk : j = k
    · subst hjk
      unfold wsState
      cases c.wsStore.get? j <;> simp
    · rw [if_neg hjk]; rfl

theorem settleCall_get? (cs : List CallRec) (id : String) (o : PromiseSt) (k : Nat) :
    (settleCall cs id o).get? k = (cs.get? k).map
      (fun r => if r.cid = some id then { r with promise := settleIfPending r.promise o } else r) := by
  unfold settleCall
  simp [List.get?_eq_getElem?, List.getElem?_map]

theorem processCall_connected (c : GatewayClient) (id : String) (d : InData) :
    (processCall c id d).connected = c.connected := by
  cases d with
  | malformed => simp [processCall, offCurrent_connected]
  | msg m =>
    by_cases hres : m.type = some "res" ∧ m.id = some id
    · by_cases hok : m.ok = some true <;> simp [processCall, hres, hok, offCurrent_connected]
    · simp [processCall, hres]

theorem processCall_reconnectTimer (c : GatewayClient) (id : String) (d : InData) :
    (processCall c id d).reconnectTimer = c.reconnectTimer := by
  cases d with
  | malformed => simp [processCall, offCurrent_reconnectTimer]
  | msg m =>
    by_cases hres : m.type = some "res" ∧ m.id = some id
    · by_cases hok : m.ok = some true <;> simp [processCall, hres, hok, offCurrent_reconnectTimer]
    · simp [processCall, hres]

theorem processCall_ws (c : GatewayClient) (id : String) (d : InData) :
    (processCall c id d).ws = c.ws := by
  cases d with
  | malformed => simp [processCall, offCurrent_ws]
  | msg m =>
    by_cases hres : m.type = some "res" ∧ m.id = some id
    · by_cases hok : m.ok = some true <;> simp [processCall, hres, hok, offCurrent_ws]
    · simp [processCall, hres]

theorem processCall_requestId (c : GatewayClient) (id : String) (d : InData) :
    (processCall c id d).requestId = c.requestId := by
  cases d with
  | malformed => simp [processCall, offCurrent_requestId]
  | msg m =>
    by_cases hres : m.type = some "res" ∧ m.id = some id
    · by_cases hok : m.ok = some true <;> simp [processCall, hres, hok, offCurrent_requestId]
    · simp [processCall, hres]

theorem processCall_wsState (c : GatewayClient) (id : String) (d : InData) (j : Nat) :
    wsState (processCall c id d) j = wsState c j := by
  have hoff := offCurrent_wsState c id j
  cases d with
  | malformed =>
    show wsState _ j = wsState c j
    unfold wsState at hoff ⊢
    simpa [processCall] using hoff
  | msg m =>
    by_cases hres : m.type = some "res" ∧ m.id = some id
    · by_cases hok : m.ok = some true <;>
        · unfold wsState at hoff ⊢
          simpa [processCall, hres, hok] using hoff
    · simp [processCall, hres]

theorem processCall_calls (c : GatewayClient) (id : String) (d : InData) :
    (processCall c id d).calls =
      match d with
      | .malformed => settleCall c.calls id (.rejected .parseFailure)
      | .msg m =>
        if m.type = some "res" ∧ m.id = some id then
          (if m.ok = some true then settleCall c.calls id (.resolved m.payload)
           else settleCall c.calls id (.rejected (.respErr m.error)))
        else c.calls := by
  cases d with
  | malformed => simp [processCall, offCurrent_calls]
  | msg m =>
    by_cases hres : m.type = some "res" ∧ m.id = some id
    · by_cases hok : m.ok = some true <;> simp [processCall, hres, hok, offCurrent_calls]
    · simp [processCall, hres]

theorem processMain_calls (c : GatewayClient) (d : InData) :
    (processMain c d).1.calls = c.calls := by
  cases d with
  | malformed => rfl
  | msg m =>
    unfold processMain
    dsimp only
    split_ifs <;> simp [sendRequest_calls, closeCurrentWs_calls]

theorem processMain_reconnectTimer (c : GatewayClient) (d : InData) :
    (processMain c d).1.reconnectTimer = c.reconnectTimer := by
  cases d with
  | malformed => rfl
  | msg m =>
    unfold processMain
    dsimp only
    split_ifs <;> simp [sendRequest_reconnectTimer, closeCurrentWs_reconnectTimer]

theorem processMain_ws (c : GatewayClient) (d : InData) :
    (processMain c d).1.ws = c.ws := by
  cases d with
  | malformed => rfl
  | msg m =>
    unfold processMain
    dsimp only
    split_ifs <;> simp [sendRequest_ws, closeCurrentWs_ws]

theorem processMain_requestId_mono (c : GatewayClient) (d : InData) :
    c.requestId ≤ (processMain c d).1.requestId := by
  cases d with
  | malformed => exact Nat.le_refl _
  | msg m =>
    unfold processMain
    dsimp only
    split_ifs <;>
      simp [sendRequest_requestId_mono, closeCurrentWs_requestId]

theorem processMain_challenge_eq (c : GatewayClient) (m : GatewayMessage)
    (ht : m.type = some "event") (he : m.event = some "connect.challenge") :
    processMain c (.msg m) =
      ((sendRequest c "connect" (connectParams c.token (challengeNonce m.payload))).1,
        Obs.logMsg "Gateway message:" ::
          Obs.logMsg "Received challenge, sending connect with nonce..." ::
            (sendRequest c "connect" (connectParams c.token (challengeNonce m.payload))).2) := by
  unfold processMain
  simp [ht, he]

theorem processMain_res_ok_eq (c : GatewayClient) (m : GatewayMessage)
    (ht : m.type = some "res") (hm : m.method = some "connect") (hok : m.ok = some true) :
    processMain c (.msg m) = ({ c with connected := true },
      [Obs.logMsg "Gateway message:", Obs.logMsg "Gateway handshake successful",
        Obs.emitConnected]) := by
  unfold processMain
  simp [ht, hm, hok]

theorem processMain_res_bad_eq (c : GatewayClient) (m : GatewayMessage)
    (ht : m.type = some "res") (hm : m.method = some "connect") (hok : m.ok ≠ some true) :
    processMain c (.msg m) = (closeCurrentWs c,
      [Obs.logMsg "Gateway message:", Obs.logMsg "Gateway handshake failed:"]) := by
  unfold processMain
  simp [ht, hm, hok]

theorem processHandler_reconnectTimer (c : GatewayClient) (h : Handler) (d : InData) :
    (processHandler c h d).1.reconnectTimer = c.reconnectTimer := by
  cases h with
  | main => exact processMain_reconnectTimer c d
  | callH id => exact processCall_reconnectTimer c id d

theorem processHandler_ws (c : GatewayClient) (h : Handler) (d : InData) :
    (processHandler c h d).1.ws = c.ws := by
  cases h with
  | main => exact processMain_ws c d
  | callH id => exact processCall_ws c id d

theorem processHandler_requestId_mono (c : GatewayClient) (h : Handler) (d : InData) :
    c.requestId ≤ (processHandler c h d).1.requestId := by
  cases h with
  | main => exact processMain_requestId_mono c d
  | callH id => exact Nat.le_of_eq (processCall_requestId c id d).symm

theorem runHandlers_cons (c : GatewayClient) (h : Handler) (t : List Handler) (d : InData) :
    runHandlers c (h :: t) d =
      ((runHandlers (processHandler c h d).1 t d).1,
        (processHandler c h d).2 ++ (runHandlers (processHandler c h d).1 t d).2) := rfl

theorem runHandlers_reconnectTimer (hs : List Handler) :
    ∀ (c : GatewayClient) (d : InData),
      (runHandlers c hs d).1.reconnectTimer = c.reconnectTimer := by
  induction hs with
  | nil => intro c d; rfl
  | cons h t ih =>
    intro c d
    rw [runHandlers_cons]
    dsimp only
    rw [ih, processHandler_reconnectTimer]

theorem runHandlers_ws (hs : List Handler) :
    ∀ (c : GatewayClient) (d : InData), (runHandlers c hs d).1.ws = c.ws := by
  induction hs with
  | nil => intro c d; rfl
  | cons h t ih =>
    intro c d
    rw [runHandlers_cons]
    dsimp only
    rw [ih, processHandler_ws]

theorem runHandlers_requestId_mono (hs : List Handler) :
    ∀ (c : GatewayClient) (d : InData),
      c.requestId ≤ (runHandlers c hs d).1.requestId := by
  induction hs with
  | nil => intro c d; exact Nat.le_refl _
  | cons h t ih =>
    intro c d
    rw [runHandlers_cons]
    dsimp only
    exact Nat.le_trans (processHandler_requestId_mono c h d) (ih _ d)

/-! ### One-shot promise evolution through handlers -/

theorem promEvolve_refl (p : PromiseSt) : PromEvolve p p := by
  cases p <;> rfl

theorem promEvolve_settled (p q : PromiseSt) (hp : p ≠ .pending) (h : PromEvolve p q) :
    q = p := by
  cases p with
  | pending => exact absurd rfl hp
  | resolved v => exact h
  | rejected e => exact h

theorem promEvolve_of_settle (p : PromiseSt) (o : PromiseSt) :
    PromEvolve p (settleIfPending p o) := by
  cases p <;> rfl

theorem promEvolve_trans (p q s : PromiseSt) (h1 : PromEvolve p q) (h2 : PromEvolve q s) :
    PromEvolve p s := by
  cases p with
  | pending => rfl
  | resolved v =>
    have hq : q = .resolved v := promEvolve_settled _ _ (by intro h; cases h) h1
    subst hq
    exact h2
  | rejected e =>
    have hq : q = .rejected e := promEvolve_settled _ _ (by intro h; cases h) h1
    subst hq
    exact h2

/-- Everything one listener can do to the record of one `call()`: identity on
the id, socket and timeout bookkeeping; one-shot promise evolution; and
resolution (or response-carried rejection) only from a response bearing the
call's own correlation id. -/
theorem processHandler_callRec (c : GatewayClient) (h : Handler) (d : InData) (k : Nat)
    (r : CallRec) (hk : c.calls.get? k = some r) :
    ∃ r', (processHandler c h d).1.calls.get? k = some r' ∧ r'.cid = r.cid ∧
      r'.wsIdx = r.wsIdx ∧ r'.timeoutArmed = r.timeoutArmed ∧
      PromEvolve r.promise r'.promise ∧
      (∀ v, r.promise = .pending → r'.promise = .resolved v →
        ∃ m, d = .msg m ∧ m.type = some "res" ∧ m.id = r.cid ∧ m.ok = some true ∧
          m.payload = v) ∧
      (∀ e, r.promise = .pending → r'.promise = .rejected (.respErr e) →
        ∃ m, d = .msg m ∧ m.type = some "res" ∧ m.id = r.cid ∧ m.ok ≠ some true ∧
          m.error = e) := by
  cases h with
  | main =>
    refine ⟨r, ?_, rfl, rfl, rfl, promEvolve_refl _, ?_, ?_⟩
    · show (processMain c d).1.calls.get? k = some r
      rw [processMain_calls, hk]
    · intro v hp hr; rw [hp] at hr; cases hr
    · intro e hp hr; rw [hp] at hr; cases hr
  | callH id =>
    show ∃ r', (processCall c id d).calls.get? k = some r' ∧ _
    rw [processCall_calls]
    cases d with
    | malformed =>
      by_cases hc : r.cid = some id
      · refine ⟨{ r with promise := settleIfPending r.promise (.rejected .parseFailure) },
          ?_, rfl, rfl, rfl, promEvolve_of_settle _ _, ?_, ?_⟩
        · rw [settleCall_get?, hk]
          simp [hc]
        · intro v hp hr
          rw [hp] at hr
          cases hr
        · intro e hp hr
          rw [hp] at hr
          cases hr
      · refine ⟨r, ?_, rfl, rfl, rfl, promEvolve_refl _, ?_, ?_⟩
        · rw [settleCall_get?, hk]
          simp [hc]
        · intro v hp hr; rw [hp] at hr; cases hr
        · intro e hp hr; rw [hp] at hr; cases hr
    | msg m =>
      dsimp only
      by_cases hres : m.type = some "res" ∧ m.id = some id
      · by_cases hok : m.ok = some true
        · rw [if_pos hres, if_pos hok]
          by_cases hc : r.cid = some id
          · refine ⟨{ r with promise := settleIfPending r.promise (.resolved m.payload) },
              ?_, rfl, rfl, rfl, promEvolve_of_settle _ _, ?_, ?_⟩
            · rw [settleCall_get?, hk]
              simp [hc]
            · intro v hp hr
              rw [hp] at hr
              simp only [settleIfPending] at hr
              cases hr
              exact ⟨m, rfl, hres.1, by rw [hc, hres.2], hok, rfl⟩
            · intro e hp hr
              rw [hp] at hr
              simp only [settleIfPending] at hr
              cases hr
          · refine ⟨r, ?_, rfl, rfl, rfl, promEvolve_refl _, ?_, ?_⟩
            · rw [settleCall_get?, hk]
              simp [hc]
            · intro v hp hr; rw [hp] at hr; cases hr
            · intro e hp hr; rw [hp] at hr; cases hr
        · rw [if_pos hres, if_neg hok]
          by_cases hc : r.cid = some id
          · refine ⟨{ r with promise := settleIfPending r.promise (.rejected (.respErr m.error)) },
              ?_, rfl, rfl, rfl, promEvolve_of_settle _ _, ?_, ?_⟩
            · rw [settleCall_get?, hk]
              simp [hc]
            · intro v hp hr
              rw [hp] at hr
              simp only [settleIfPending] at hr
              cases hr
            · intro e hp hr
              rw [hp] at hr
              simp only [settleIfPending] at hr
              cases hr
              exact ⟨m, rfl, hres.1, by rw [hc, hres.2], hok, rfl⟩
          · refine ⟨r, ?_, rfl, rfl, rfl, promEvolve_refl _, ?_, ?_⟩
            · rw [settleCall_get?, hk]
              simp [hc]
            · intro v hp hr; rw [hp] at hr; cases hr
            · intro e hp hr; rw [hp] at hr; cases hr
      · rw [if_neg hres]
        refine ⟨r, hk, rfl, rfl, rfl, promEvolve_refl _, ?_, ?_⟩
        · intro v hp hr; rw [hp] at hr; cases hr
        · intro e hp hr; rw [hp] at hr; cases hr

theorem runHandlers_callRec (hs : List Handler) :
    ∀ (c : GatewayClient) (d : InData) (k : Nat) (r : CallRec),
      c.calls.get? k = some r →
      ∃ r', (runHandlers c hs d).1.calls.get? k = some r' ∧ r'.cid = r.cid ∧
        r'.wsIdx = r.wsIdx ∧ r'.timeoutArmed = r.timeoutArmed ∧
        PromEvolve r.promise r'.promise ∧
        (∀ v, r.promise = .pending → r'.promise = .resolved v →
          ∃ m, d = .msg m ∧ m.type = some "res" ∧ m.id = r.cid ∧ m.ok = some true ∧
            m.payload = v) ∧
        (∀ e, r.promise = .pending → r'.promise = .rejected (.respErr e) →
          ∃ m, d = .msg m ∧ m.type = some "res" ∧ m.id = r.cid ∧ m.ok ≠ some true ∧
            m.error = e) := by
  induction hs with
  | nil =>
    intro c d k r hk
    refine ⟨r, hk, rfl, rfl, rfl, promEvolve_refl _, ?_, ?_⟩
    · intro v hp hr; rw [hp] at hr; cases hr
    · intro e hp hr; rw [hp] at hr; cases hr
  | cons h t ih =>
    intro c d k r hk
    obtain ⟨r1, h1k, h1c, h1w, h1t, h1p, h1res, h1rej⟩ := processHandler_callRec c h d k r hk
    obtain ⟨r2, h2k, h2c, h2w, h2t, h2p, h2res, h2rej⟩ := ih (processHandler c h d).1 d k r1 h1k
    rw [runHandlers_cons]
    refine ⟨r2, h2k, by rw [h2c, h1c], by rw [h2w, h1w], by rw [h2t, h1t],
      promEvolve_trans _ _ _ h1p h2p, ?_, ?_⟩
    · intro v hp hres2
      by_cases hm : r1.promise = .pending
      · obtain ⟨m, hd, hmt, hmi, hmo, hmp⟩ := h2res v hm hres2
        rw [h1c] at hmi
        exact ⟨m, hd, hmt, hmi, hmo, hmp⟩
      · have heq := promEvolve_settled _ _ hm h2p
        rw [hres2] at heq
        exact h1res v hp heq.symm
    · intro e hp hrej2
      by_cases hm : r1.promise = .pending
      · obtain ⟨m, hd, hmt, hmi, hmo, hme⟩ := h2rej e hm hrej2
        rw [h1c] at hmi
        exact ⟨m, hd, hmt, hmi, hmo, hme⟩
      · have heq := promEvolve_settled _ _ hm h2p
        rw [hrej2] at heq
        exact h1rej e hp heq.symm

theorem get?_append_of_some {α : Type} (l l2 : List α) (k : Nat) (x : α)
    (h : l.get? k = some x) : (l ++ l2).get? k = some x := by
  have hlt : k < l.length := by
    rw [List.get?_eq_getElem?] at h
    exact (List.getElem?_eq_some.mp h).1
  rw [List.get?_append hlt]
  exact h

theorem connect_calls (c : GatewayClient) : (connect c).1.calls = c.calls := by
  unfold connect; split <;> rfl

theorem connect_reconnectTimer (c : GatewayClient) :
    (connect c).1.reconnectTimer = c.reconnectTimer := by
  unfold connect; split <;> rfl

theorem disconnect_calls (c : GatewayClient) : (disconnect c).calls = c.calls := by
  unfold disconnect; cases h : c.ws <;> simp [h]

theorem scheduleReconnect_calls (c : GatewayClient) :
    (scheduleReconnect c).calls = c.calls := by
  unfold scheduleReconnect; split <;> rfl

theorem scheduleReconnect_connected (c : GatewayClient) :
    (scheduleReconnect c).connected = c.connected := by
  unfold scheduleReconnect; split <;> rfl

theorem closeEvent_calls (c : GatewayClient) (i : Nat) :
    (closeEvent c i).1.calls = c.calls := by
  unfold closeEvent
  cases hg : c.wsStore.get? i with
  | none => rfl
  | some w =>
    by_cases hc : w.readyState = .closed <;> simp [hc, scheduleReconnect_calls]

theorem openEvent_calls (c : GatewayClient) (i : Nat) :
    (openEvent c i).1.calls = c.calls := by
  unfold openEvent
  cases hg : c.wsStore.get? i with
  | none => rfl
  | some w =>
    by_cases hc : w.readyState = .connecting <;> simp [hc]

theorem errorEvent_calls (c : GatewayClient) (i : Nat) (e : Json) :
    (errorEvent c i e).1.calls = c.calls := by
  unfold errorEvent
  cases hg : c.wsStore.get? i with
  | none => rfl
  | some w =>
    by_cases hc : w.readyState = .closed <;> simp [hc]

theorem reconnectFire_calls (c : GatewayClient) :
    (reconnectFire c).1.calls = c.calls := by
  unfold reconnectFire
  cases h : c.reconnectTimer <;> simp [h, connect_calls]

/-- Everything one reactive turn can do to the record of one `call()`:
the correlation id is stable, the promise evolves one-shot, and a resolution
(or response-carried rejection) of a pending call can only come from a
delivered response bearing the call's own correlation id. -/
theorem step_callRec (c : GatewayClient) (a : Act) (k : Nat) (r : CallRec)
    (hk : c.calls.get? k = some r) :
    ∃ r', (step c a).1.calls.get? k = some r' ∧ r'.cid = r.cid ∧
      PromEvolve r.promise r'.promise ∧
      (∀ v, r.promise = .pending → r'.promise = .resolved v →
        ∃ i m, a = .wsDeliver i (.msg m) ∧ m.type = some "res" ∧ m.id = r.cid ∧
          m.ok = some true ∧ m.payload = v) ∧
      (∀ e, r.promise = .pending → r'.promise = .rejected (.respErr e) →
        ∃ i m, a = .wsDeliver i (.msg m) ∧ m.type = some "res" ∧ m.id = r.cid ∧
          m.ok ≠ some true ∧ m.error = e) := by
  have triv : ∀ (cx : GatewayClient), cx.calls.get? k = some r →
      (∃ r', cx.calls.get? k = some r' ∧ r'.cid = r.cid ∧
        PromEvolve r.promise r'.promise ∧
        (∀ v, r.promise = .pending → r'.promise = .resolved v → False) ∧
        (∀ e, r.promise = .pending → r'.promise = .rejected (.respErr e) → False)) := by
    intro cx hx
    refine ⟨r, hx, rfl, promEvolve_refl _, ?_, ?_⟩
    · intro v hp hr; rw [hp] at hr; cases hr
    · intro e hp hr; rw [hp] at hr; cases hr
  cases a with
  | apiConnect =>
    obtain ⟨r', h1, h2, h3, h4, h5⟩ := triv c hk
    exact ⟨r', by rw [step, connect_calls]; exact h1, h2, h3,
      fun v hp hr => absurd (h4 v hp) (by simp [hr]),
      fun e hp hr => absurd (h5 e hp) (by simp [hr])⟩
  | apiDisconnect =>
    obtain ⟨r', h1, h2, h3, h4, h5⟩ := triv c hk
    exact ⟨r', by rw [step]; dsimp only; rw [disconnect_calls]; exact h1, h2, h3,
      fun v hp hr => absurd (h4 v hp) (by simp [hr]),
      fun e hp hr => absurd (h5 e hp) (by simp [hr])⟩
  | wsOpen i =>
    obtain ⟨r', h1, h2, h3, h4, h5⟩ := triv c hk
    exact ⟨r', by rw [step, openEvent_calls]; exact h1, h2, h3,
      fun v hp hr => absurd (h4 v hp) (by simp [hr]),
      fun e hp hr => absurd (h5 e hp) (by simp [hr])⟩
  | wsError i e =>
    obtain ⟨r', h1, h2, h3, h4, h5⟩ := triv c hk
    exact ⟨r', by rw [step, errorEvent_calls]; exact h1, h2, h3,
      fun v hp hr => absurd (h4 v hp) (by simp [hr]),
      fun e hp hr => absurd (h5 e hp) (by simp [hr])⟩
  | wsClose i =>
    obtain ⟨r', h1, h2, h3, h4, h5⟩ := triv c hk
    exact ⟨r', by rw [step, closeEvent_calls]; exact h1, h2, h3,
      fun v hp hr => absurd (h4 v hp) (by simp [hr]),
      fun e hp hr => absurd (h5 e hp) (by simp [hr])⟩
  | reconnectTimerFire =>
    obtain ⟨r', h1, h2, h3, h4, h5⟩ := triv c hk
    exact ⟨r', by rw [step, reconnectFire_calls]; exact h1, h2, h3,
      fun v hp hr => absurd (h4 v hp) (by simp [hr]),
      fun e hp hr => absurd (h5 e hp) (by simp [hr])⟩
  | apiCall m p =>
    show ∃ r', (call c m p).1.calls.get? k = some r' ∧ _
    unfold call
    by_cases hcon : ¬ isConnected c
    · rw [if_pos hcon]
      refine ⟨r, get?_append_of_some _ _ _ _ hk, rfl, promEvolve_refl _, ?_, ?_⟩
      · intro v hp hr; rw [hp] at hr; cases hr
      · intro e hp hr; rw [hp] at hr; cases hr
    · rw [if_neg hcon]
      cases hw : c.ws with
      | none =>
        refine ⟨r, hk, rfl, promEvolve_refl _, ?_, ?_⟩
        · intro v hp hr; rw [hp] at hr; cases hr
        · intro e hp hr; rw [hp] at hr; cases hr
      | some j =>
        refine ⟨r, get?_append_of_some _ _ _ _ hk, rfl, promEvolve_refl _, ?_, ?_⟩
        · intro v hp hr; rw [hp] at hr; cases hr
        · intro e hp hr; rw [hp] at hr; cases hr
  | callTimeout k2 =>
    show ∃ r', (timeoutFire c k2).calls.get? k = some r' ∧ _
    unfold timeoutFire
    cases hg : c.calls.get? k2 with
    | none =>
      refine ⟨r, hk, rfl, promEvolve_refl _, ?_, ?_⟩
      · intro v hp hr; rw [hp] at hr; cases hr
      · intro e hp hr; rw [hp] at hr; cases hr
    | some r2 =>
      dsimp only
      by_cases harm : r2.timeoutArmed
      · rw [if_pos harm]
        by_cases hkk : k = k2
        · subst hkk
          rw [hk] at hg
          cases hg
          have hcalls : (match r.cid with
              | some id => offCurrent c id
              | none => c).calls = c.calls := by
            cases r.cid <;> simp [offCurrent_calls]
          refine ⟨{ r with
              promise := settleIfPending r.promise (.rejected (.errMsg "Gateway call timeout")),
              timeoutArmed := false }, ?_, rfl, promEvolve_of_settle _ _, ?_, ?_⟩
          · dsimp only
            rw [hcalls]
            have hlt : k < c.calls.length := by
              rw [List.get?_eq_getElem?] at hk
              exact (List.getElem?_eq_some.mp hk).1
            simp [List.get?_eq_getElem?, List.getElem?_set_self hlt]
          · intro v hp hr
            rw [hp] at hr
            simp only [settleIfPending] at hr
            cases hr
          · intro e hp hr
            rw [hp] at hr
            simp only [settleIfPending] at hr
            cases hr
        · have hcalls : (match r2.cid with
              | some id => offCurrent c id
              | none => c).calls = c.calls := by
            cases r2.cid <;> simp [offCurrent_calls]
          refine ⟨r, ?_, rfl, promEvolve_refl _, ?_, ?_⟩
          · dsimp only
            rw [hcalls]
            simp only [List.get?_eq_getElem?] at hk ⊢
            rw [List.getElem?_set_ne (fun hh => hkk hh.symm)]
            exact hk
          · intro v hp hr; rw [hp] at hr; cases hr
          · intro e hp hr; rw [hp] at hr; cases hr
      · rw [if_neg harm]
        refine ⟨r, hk, rfl, promEvolve_refl _, ?_, ?_⟩
        · intro v hp hr; rw [hp] at hr; cases hr
        · intro e hp hr; rw [hp] at hr; cases hr
  | wsDeliver i d =>
    show ∃ r', (deliver c i d).1.calls.get? k = some r' ∧ _
    unfold deliver
    cases hg : c.wsStore.get? i with
    | none =>
      refine ⟨r, hk, rfl, promEvolve_refl _, ?_, ?_⟩
      · intro v hp hr; rw [hp] at hr; cases hr
      · intro e hp hr; rw [hp] at hr; cases hr
    | some w =>
      dsimp only
      by_cases hrs : w.readyState = .opened ∨ w.readyState = .closing
      · rw [if_pos hrs]
        obtain ⟨r', h1, h2, h3, h4, h5, h6, h7⟩ := runHandlers_callRec w.handlers c d k r hk
        refine ⟨r', h1, h2, h5, ?_, ?_⟩
        · intro v hp hr
          obtain ⟨m, hd, hmt, hmi, hmo, hmp⟩ := h6 v hp hr
          exact ⟨i, m, by rw [hd], hmt, hmi, hmo, hmp⟩
        · intro e hp hr
          obtain ⟨m, hd, hmt, hmi, hmo, hme⟩ := h7 e hp hr
          exact ⟨i, m, by rw [hd], hmt, hmi, hmo, hme⟩
      · rw [if_neg hrs]
        refine ⟨r, hk, rfl, promEvolve_refl _, ?_, ?_⟩
        · intro v hp hr; rw [hp] at hr; cases hr
        · intro e hp hr; rw [hp] at hr; cases hr

theorem run_cons (c : GatewayClient) (a : Act) (t : List Act) :
    run c (a :: t) =
      ((run (step c a).1 t).1, (step c a).2 ++ (run (step c a).1 t).2) := rfl

/-- A settled promise never changes again, under any sequence of reactive
turns (JS promises settle exactly once). -/
theorem run_settled (acts : List Act) :
    ∀ (c : GatewayClient) (k : Nat) (r : CallRec), c.calls.get? k = some r →
      r.promise ≠ .pending →
      ∃ r', (run c acts).1.calls.get? k = some r' ∧ r'.promise = r.promise ∧
        r'.cid = r.cid := by
  induction acts with
  | nil => exact fun c k r hk _ => ⟨r, hk, rfl, rfl⟩
  | cons a t ih =>
    intro c k r hk hs
    obtain ⟨r1, h1, hc1, hp1, _, _⟩ := step_callRec c a k r hk
    have hp1' : r1.promise = r.promise := promEvolve_settled _ _ hs hp1
    obtain ⟨r2, h2, hp2, hc2⟩ := ih (step c a).1 k r1 h1 (by rw [hp1']; exact hs)
    rw [run_cons]
    exact ⟨r2, h2, by rw [hp2, hp1'], by rw [hc2, hc1]⟩

theorem scheduleReconnect_timer (c : GatewayClient) :
    (scheduleReconnect c).reconnectTimer =
      if c.reconnectTimer = .noTimer then .pendingT else c.reconnectTimer := by
  unfold scheduleReconnect
  cases h : c.reconnectTimer <;> simp [h]

theorem call_reconnectTimer (c : GatewayClient) (m : String) (p : Json) :
    (call c m p).1.reconnectTimer = c.reconnectTimer := by
  unfold call
  by_cases hcon : ¬ isConnected c
  · rw [if_pos hcon]
  · rw [if_neg hcon]
    cases hw : c.ws <;> rfl

theorem call_calls (c : GatewayClient) (m : String) (p : Json) :
    (call c m p).1.calls =
      if ¬ isConnected c then
        c.calls ++ [{ cid := none, wsIdx := none, promise := .rejected (.errMsg "Not connected to Gateway"), timeoutArmed := false }]
      else
        match c.ws with
        | some j => c.calls ++ [{ cid := some (callIdStr c.requestId), wsIdx := some j, promise := .pending, timeoutArmed := true }]
        | none => c.calls := by
  unfold call
  by_cases hcon : ¬ isConnected c
  · rw [if_pos hcon, if_pos hcon]
  · rw [if_neg hcon, if_neg hcon]
    cases hw : c.ws <;> rfl

theorem call_requestId (c : GatewayClient) (m : String) (p : Json) :
    (call c m p).1.requestId =
      if ¬ isConnected c then c.requestId
      else match c.ws with
        | some _ => c.requestId + 1
        | none => c.requestId := by
  unfold call
  by_cases hcon : ¬ isConnected c
  · rw [if_pos hcon, if_pos hcon]
  · rw [if_neg hcon, if_neg hcon]
    cases hw : c.ws <;> rfl

theorem openEvent_reconnectTimer (c : GatewayClient) (i : Nat) :
    (openEvent c i).1.reconnectTimer = c.reconnectTimer := by
  unfold openEvent
  cases hg : c.wsStore.get? i with
  | none => rfl
  | some w => by_cases hc : w.readyState = .connecting <;> simp [hc]

theorem errorEvent_reconnectTimer (c : GatewayClient) (i : Nat) (e : Json) :
    (errorEvent c i e).1.reconnectTimer = c.reconnectTimer := by
  unfold errorEvent
  cases hg : c.wsStore.get? i with
  | none => rfl
  | some w => by_cases hc : w.readyState = .closed <;> simp [hc]

theorem closeEvent_reconnectTimer (c : GatewayClient) (i : Nat) :
    (closeEvent c i).1.reconnectTimer =
      if (wsState c i).isSome ∧ wsState c i ≠ some .closed then
        (if c.reconnectTimer = .noTimer then .pendingT else c.reconnectTimer)
      else c.reconnectTimer := by
  unfold closeEvent wsState
  cases hg : c.wsStore.get? i with
  | none => simp
  | some w =>
    dsimp only
    by_cases hc : w.readyState = .closed
    · simp [hc]
    · rw [if_neg hc]
      dsimp only
      rw [scheduleReconnect_timer]
      simp [hc]

theorem timeoutFire_reconnectTimer (c : GatewayClient) (k : Nat) :
    (timeoutFire c k).reconnectTimer = c.reconnectTimer := by
  unfold timeoutFire
  cases hg : c.calls.get? k with
  | none => rfl
  | some r =>
    dsimp only
    by_cases harm : r.timeoutArmed
    · rw [if_pos harm]
      cases r.cid <;> simp [offCurrent_reconnectTimer]
    · rw [if_neg harm]

theorem reconnectFire_reconnectTimer_fired (c : GatewayClient)
    (h : c.reconnectTimer = .firedT) : (reconnectFire c).1.reconnectTimer = .firedT := by
  unfold reconnectFire
  rw [h]
  exact h

/-- Once the reconnect timer has fired, its stale handle keeps the
`reconnectTimer` field non-null forever (only `disconnect()` clears it), so
`scheduleReconnect` never schedules again. -/
theorem fired_sticky (c : GatewayClient) (a : Act) (h : c.reconnectTimer = .firedT)
    (ha : a ≠ .apiDisconnect) : (step c a).1.reconnectTimer = .firedT := by
  cases a with
  | apiConnect => rw [step, connect_reconnectTimer]; exact h
  | apiDisconnect => exact absurd rfl ha
  | apiCall m p => rw [step, call_reconnectTimer]; exact h
  | wsOpen i => rw [step, openEvent_reconnectTimer]; exact h
  | wsDeliver i d =>
    show (deliver c i d).1.reconnectTimer = .firedT
    unfold deliver
    cases hg : c.wsStore.get? i with
    | none => exact h
    | some w =>
      dsimp only
      by_cases hrs : w.readyState = .opened ∨ w.readyState = .closing
      · rw [if_pos hrs, runHandlers_reconnectTimer]; exact h
      · rw [if_neg hrs]; exact h
  | wsError i e => rw [step, errorEvent_reconnectTimer]; exact h
  | wsClose i =>
    rw [step, closeEvent_reconnectTimer]
    split
    · rw [h]; simp
    · exact h
  | reconnectTimerFire => exact reconnectFire_reconnectTimer_fired c h
  | callTimeout k => rw [step]; dsimp only; rw [timeoutFire_reconnectTimer]; exact h

/-! ### Correlation ids along a run: allocation from the counter, pairwise
distinct -/

theorem settleCall_filterMap_cid (cs : List CallRec) (id : String) (o : PromiseSt) :
    (settleCall cs id o).filterMap CallRec.cid = cs.filterMap CallRec.cid := by
  induction cs with
  | nil => rfl
  | cons r t ih =>
    show (settleCall (r :: t) id o).filterMap CallRec.cid = _
    unfold settleCall
    simp only [List.map_cons, List.filterMap_cons]
    have hcid : (if r.cid = some id then { r with promise := settleIfPending r.promise o } else r).cid = r.cid := by
      split <;> rfl
    rw [hcid]
    have ht : (List.map (fun r => if r.cid = some id then { r with promise := settleIfPending r.promise o } else r) t).filterMap CallRec.cid = t.filterMap CallRec.cid := ih
    rw [ht]

theorem filterMap_cid_set (cs : List CallRec) :
    ∀ (k : Nat) (r r' : CallRec), cs.get? k = some r → r'.cid = r.cid →
      (cs.set k r').filterMap CallRec.cid = cs.filterMap CallRec.cid := by
  induction cs with
  | nil => intro k r r' hk; cases hk
  | cons x t ih =>
    intro k r r' hk hc
    cases k with
    | zero =>
      have hx : x = r := by
        have : some x = some r := hk
        cases this
        rfl
      subst hx
      show (r' :: t).filterMap CallRec.cid = (x :: t).filterMap CallRec.cid
      simp only [List.filterMap_cons, hc]
    | succ k2 =>
      have hk2 : t.get? k2 = some r := hk
      show (x :: t.set k2 r').filterMap CallRec.cid = (x :: t).filterMap CallRec.cid
      simp only [List.filterMap_cons, ih k2 r r' hk2 hc]

theorem processCall_filterMap_cid (c : GatewayClient) (id : String) (d : InData) :
    (processCall c id d).calls.filterMap CallRec.cid = c.calls.filterMap CallRec.cid := by
  rw [processCall_calls]
  cases d with
  | malformed => exact settleCall_filterMap_cid _ _ _
  | msg m =>
    dsimp only
    by_cases hres : m.type = some "res" ∧ m.id = some id
    · by_cases hok : m.ok = some true
      · rw [if_pos hres, if_pos hok]; exact settleCall_filterMap_cid _ _ _
      · rw [if_pos hres, if_neg hok]; exact settleCall_filterMap_cid _ _ _
    · rw [if_neg hres]

theorem processHandler_filterMap_cid (c : GatewayClient) (h : Handler) (d : InData) :
    (processHandler c h d).1.calls.filterMap CallRec.cid = c.calls.filterMap CallRec.cid := by
  cases h with
  | main => rw [show (processHandler c .main d).1 = (processMain c d).1 from rfl, processMain_calls]
  | callH id => exact processCall_filterMap_cid c id d

theorem runHandlers_filterMap_cid (hs : List Handler) :
    ∀ (c : GatewayClient) (d : InData),
      (runHandlers c hs d).1.calls.filterMap CallRec.cid = c.calls.filterMap CallRec.cid := by
  induction hs with
  | nil => intro c d; rfl
  | cons h t ih =>
    intro c d
    rw [runHandlers_cons]
    dsimp only
    rw [ih, processHandler_filterMap_cid]

theorem connect_requestId (c : GatewayClient) : (connect c).1.requestId = c.requestId := by
  unfold connect; split <;> rfl

theorem disconnect_requestId (c : GatewayClient) : (disconnect c).requestId = c.requestId := by
  unfold disconnect; cases h : c.ws <;> simp [h]

theorem scheduleReconnect_requestId (c : GatewayClient) :
    (scheduleReconnect c).requestId = c.requestId := by
  unfold scheduleReconnect; split <;> rfl

theorem closeEvent_requestId (c : GatewayClient) (i : Nat) :
    (closeEvent c i).1.requestId = c.requestId := by
  unfold closeEvent
  cases hg : c.wsStore.get? i with
  | none => rfl
  | some w =>
    dsimp only
    by_cases hc : w.readyState = .closed <;> simp [hc, scheduleReconnect_requestId]

theorem openEvent_requestId (c : GatewayClient) (i : Nat) :
    (openEvent c i).1.requestId = c.requestId := by
  unfold openEvent
  cases hg : c.wsStore.get? i with
  | none => rfl
  | some w => by_cases hc : w.readyState = .connecting <;> simp [hc]

theorem errorEvent_requestId (c : GatewayClient) (i : Nat) (e : Json) :
    (errorEvent c i e).1.requestId = c.requestId := by
  unfold errorEvent
  cases hg : c.wsStore.get? i with
  | none => rfl
  | some w => by_cases hc : w.readyState = .closed <;> simp [hc]

theorem reconnectFire_requestId (c : GatewayClient) :
    (reconnectFire c).1.requestId = c.requestId := by
  unfold reconnectFire
  cases h : c.reconnectTimer <;> simp [h, connect_requestId]

theorem timeoutFire_requestId (c : GatewayClient) (k : Nat) :
    (timeoutFire c k).requestId = c.requestId := by
  unfold timeoutFire
  cases hg : c.calls.get? k with
  | none => rfl
  | some r =>
    dsimp only
    by_cases harm : r.timeoutArmed
    · rw [if_pos harm]
      cases r.cid <;> simp [offCurrent_requestId]
    · rw [if_neg harm]

theorem step_requestId_mono (c : GatewayClient) (a : Act) :
    c.requestId ≤ (step c a).1.requestId := by
  cases a with
  | apiConnect => rw [step, connect_requestId]
  | apiDisconnect => rw [step]; dsimp only; rw [disconnect_requestId]
  | apiCall m p =>
    rw [step, call_requestId]
    split
    · exact Nat.le_refl _
    · split
      · exact Nat.le_succ _
      · exact Nat.le_refl _
  | wsOpen i => rw [step, openEvent_requestId]
  | wsDeliver i d =>
    show c.requestId ≤ (deliver c i d).1.requestId
    unfold deliver
    cases hg : c.wsStore.get? i with
    | none => exact Nat.le_refl _
    | some w =>
      dsimp only
      by_cases hrs : w.readyState = .opened ∨ w.readyState = .closing
      · rw [if_pos hrs]; exact runHandlers_requestId_mono _ _ _
      · rw [if_neg hrs]
  | wsError i e => rw [step, errorEvent_requestId]
  | wsClose i => rw [step, closeEvent_requestId]
  | reconnectTimerFire => rw [step, reconnectFire_requestId]
  | callTimeout k => rw [step]; dsimp only; rw [timeoutFire_requestId]

theorem connect_ws_calls (c : GatewayClient) : (connect c).1.calls = c.calls :=
  connect_calls c

theorem step_cids (c : GatewayClient) (a : Act) :
    (step c a).1.calls.filterMap CallRec.cid = c.calls.filterMap CallRec.cid ∨
      ((step c a).1.calls.filterMap CallRec.cid =
          c.calls.filterMap CallRec.cid ++ [callIdStr c.requestId] ∧
        (step c a).1.requestId = c.requestId + 1) := by
  cases a with
  | apiConnect => left; rw [step, connect_calls]
  | apiDisconnect => left; rw [step]; dsimp only; rw [disconnect_calls]
  | wsOpen i => left; rw [step, openEvent_calls]
  | wsError i e => left; rw [step, errorEvent_calls]
  | wsClose i => left; rw [step, closeEvent_calls]
  | reconnectTimerFire => left; rw [step, reconnectFire_calls]
  | wsDeliver i d =>
    left
    show (deliver c i d).1.calls.filterMap CallRec.cid = _
    unfold deliver
    cases hg : c.wsStore.get? i with
    | none => rfl
    | some w =>
      dsimp only
      by_cases hrs : w.readyState = .opened ∨ w.readyState = .closing
      · rw [if_pos hrs]; exact runHandlers_filterMap_cid _ _ _
      · rw [if_neg hrs]
  | callTimeout k =>
    left
    show (timeoutFire c k).calls.filterMap CallRec.cid = _
    unfold timeoutFire
    cases hg : c.calls.get? k with
    | none => rfl
    | some r =>
      dsimp only
      by_cases harm : r.timeoutArmed
      · rw [if_pos harm]
        have hcalls : (match r.cid with
            | some id => offCurrent c id
            | none => c).calls = c.calls := by
          cases r.cid <;> simp [offCurrent_calls]
        dsimp only
        rw [hcalls]
        exact filterMap_cid_set c.calls k r _ hg rfl
      · rw [if_neg harm]
  | apiCall m p =>
    rw [step, call_calls, call_requestId]
    by_cases hcon : ¬ isConnected c
    · left
      rw [if_pos hcon]
      simp
    · rw [if_neg hcon, if_neg hcon]
      cases hw : c.ws with
      | none => left; rfl
      | some j =>
        right
        constructor
        · simp
        · rfl

theorem step_CidInv (c : GatewayClient) (a : Act) (h : CidInv c) : CidInv (step c a).1 := by
  obtain ⟨hbound, hpair⟩ := h
  have hmono := step_requestId_mono c a
  rcases step_cids c a with hcase | ⟨hcase, hreq⟩
  · constructor
    · intro s hs
      unfold cids at hs
      rw [hcase] at hs
      obtain ⟨n, hn, hsn⟩ := hbound s hs
      exact ⟨n, Nat.lt_of_lt_of_le hn hmono, hsn⟩
    · unfold cids
      rw [hcase]
      exact hpair
  · constructor
    · intro s hs
      unfold cids at hs
      rw [hcase] at hs
      rcases List.mem_append.mp hs with h1 | h2
      · obtain ⟨n, hn, hsn⟩ := hbound s h1
        exact ⟨n, by rw [hreq]; omega, hsn⟩
      · have hsn : s = callIdStr c.requestId := by simpa using h2
        exact ⟨c.requestId, by rw [hreq]; omega, hsn⟩
    · unfold cids
      rw [hcase, List.pairwise_append]
      refine ⟨hpair, List.pairwise_singleton _ _, ?_⟩
      intro x hx y hy
      have hy' : y = callIdStr c.requestId := by simpa using hy
      subst hy'
      obtain ⟨n, hn, hxn⟩ := hbound x hx
      subst hxn
      intro hEq
      have := callIdStr_injective hEq
      omega

theorem run_CidInv_aux (acts : List Act) :
    ∀ (c : GatewayClient), CidInv c → CidInv (run c acts).1 := by
  induction acts with
  | nil => exact fun c h => h
  | cons a t ih =>
    intro c h
    rw [run_cons]
    exact ih (step c a).1 (step_CidInv c a h)

theorem init_CidInv (u : String) (tk : Option String) : CidInv (init u tk) := by
  constructor
  · intro s hs
    simp [cids, init] at hs
  · simp [cids, init]

/-! ### Observation-counting helpers -/

theorem cntConnected_append (a b : List Obs) :
    cntConnected (a ++ b) = cntConnected a + cntConnected b := by
  simp [cntConnected, List.filter_append]

theorem cntError_append (a b : List Obs) :
    cntError (a ++ b) = cntError a + cntError b := by
  simp [cntError, List.filter_append]

theorem cntSends_append (a b : List Obs) :
    cntSends (a ++ b) = cntSends a + cntSends b := by
  simp [cntSends, List.filter_append]

theorem cntForwards_append (a b : List Obs) :
    cntForwards (a ++ b) = cntForwards a + cntForwards b := by
  simp [cntForwards, List.filter_append]

/-! ### Listener lists without the main listener -/

theorem processCall_obs (c : GatewayClient) (id : String) (d : InData) :
    (processHandler c (.callH id) d).2 = [] := rfl

theorem runHandlers_obs_noMain (hs : List Handler) (hnm : ∀ h ∈ hs, h ≠ .main) :
    ∀ (c : GatewayClient) (d : InData), (runHandlers c hs d).2 = [] := by
  induction hs with
  | nil => intro c d; rfl
  | cons h t ih =>
    intro c d
    rw [runHandlers_cons]
    have hh : h ≠ Handler.main := hnm h (List.mem_cons_self h t)
    cases h with
    | main => exact absurd rfl hh
    | callH id =>
      dsimp only
      rw [processCall_obs, ih (fun h2 hm => hnm h2 (List.mem_cons_of_mem _ hm))]
      rfl

theorem runHandlers_connected_noMain (hs : List Handler) (hnm : ∀ h ∈ hs, h ≠ .main) :
    ∀ (c : GatewayClient) (d : InData),
      (runHandlers c hs d).1.connected = c.connected := by
  induction hs with
  | nil => intro c d; rfl
  | cons h t ih =>
    intro c d
    rw [runHandlers_cons]
    have hh : h ≠ Handler.main := hnm h (List.mem_cons_self h t)
    cases h with
    | main => exact absurd rfl hh
    | callH id =>
      dsimp only
      rw [ih (fun h2 hm => hnm h2 (List.mem_cons_of_mem _ hm))]
      exact processCall_connected c id d

theorem runHandlers_wsState_noMain (hs : List Handler) (hnm : ∀ h ∈ hs, h ≠ .main) :
    ∀ (c : GatewayClient) (d : InData) (j : Nat),
      wsState (runHandlers c hs d).1 j = wsState c j := by
  induction hs with
  | nil => intro c d j; rfl
  | cons h t ih =>
    intro c d j
    rw [runHandlers_cons]
    have hh : h ≠ Handler.main := hnm h (List.mem_cons_self h t)
    cases h with
    | main => exact absurd rfl hh
    | callH id =>
      dsimp only
      rw [ih (fun h2 hm => hnm h2 (List.mem_cons_of_mem _ hm))]
      exact processCall_wsState c id d j

/-! ### Malformed frames -/

theorem processMain_malformed_eq (c : GatewayClient) :
    processMain c .malformed = (c, [Obs.logMsg "Failed to parse Gateway message:"]) := rfl

theorem processHandler_malformed_connected (c : GatewayClient) (h : Handler) :
    (processHandler c h .malformed).1.connected = c.connected := by
  cases h with
  | main => rfl
  | callH id => exact processCall_connected c id .malformed

theorem processHandler_malformed_wsState (c : GatewayClient) (h : Handler) (j : Nat) :
    wsState (processHandler c h .malformed).1 j = wsState c j := by
  cases h with
  | main => rfl
  | callH id => exact processCall_wsState c id .malformed j

theorem processHandler_malformed_obs (c : GatewayClient) (h : Handler) :
    (processHandler c h .malformed).2 = [] ∨
      (processHandler c h .malformed).2 = [Obs.logMsg "Failed to parse Gateway message:"] := by
  cases h with
  | main => right; rfl
  | callH id => left; rfl

theorem runHandlers_malformed_connected (hs : List Handler) :
    ∀ (c : GatewayClient), (runHandlers c hs .malformed).1.connected = c.connected := by
  induction hs with
  | nil => intro c; rfl
  | cons h t ih =>
    intro c
    rw [runHandlers_cons]
    dsimp only
    rw [ih, processHandler_malformed_connected]

theorem runHandlers_malformed_wsState (hs : List Handler) :
    ∀ (c : GatewayClient) (j : Nat),
      wsState (runHandlers c hs .malformed).1 j = wsState c j := by
  induction hs with
  | nil => intro c j; rfl
  | cons h t ih =>
    intro c j
    rw [runHandlers_cons]
    dsimp only
    rw [ih, processHandler_malformed_wsState]

theorem runHandlers_malformed_obs (hs : List Handler) :
    ∀ (c : GatewayClient), ∀ o ∈ (runHandlers c hs .malformed).2,
      o = Obs.logMsg "Failed to parse Gateway message:" := by
  induction hs with
  | nil => intro c o ho; cases ho
  | cons h t ih =>
    intro c o ho
    rw [runHandlers_cons] at ho
    dsimp only at ho
    rcases List.mem_append.mp ho with h1 | h2
    · rcases processHandler_malformed_obs c h with he | he <;> rw [he] at h1
      · cases h1
      · simpa using h1
    · exact ih _ o h2

theorem runHandlers_settled (hs : List Handler) (c : GatewayClient) (d : InData) (k : Nat)
    (r : CallRec) (hk : c.calls.get? k = some r) (hsettled : r.promise ≠ .pending) :
    ∃ r', (runHandlers c hs d).1.calls.get? k = some r' ∧ r'.promise = r.promise ∧
      r'.cid = r.cid := by
  obtain ⟨r', h1, hc, _, _, hp, _⟩ := runHandlers_callRec hs c d k r hk
  exact ⟨r', h1, promEvolve_settled _ _ hsettled hp, hc⟩

/-- A malformed frame rejects, with the parse error, every pending call whose
listener is in the dispatched listener list. -/
theorem runHandlers_malformed_rejects (hs : List Handler) :
    ∀ (c : GatewayClient) (k : Nat) (r : CallRec) (id : String),
      c.calls.get? k = some r → r.cid = some id → Handler.callH id ∈ hs →
      ∃ r', (runHandlers c hs .malformed).1.calls.get? k = some r' ∧
        r'.promise = settleIfPending r.promise (.rejected .parseFailure) := by
  induction hs with
  | nil => intro c k r id hk hc hm; cases hm
  | cons h t ih =>
    intro c k r id hk hc hm
    rw [runHandlers_cons]
    dsimp only
    by_cases hhid : h = Handler.callH id
    · subst hhid
      have h1 : (processHandler c (.callH id) .malformed).1.calls.get? k =
          some { r with promise := settleIfPending r.promise (.rejected .parseFailure) } := by
        show (processCall c id .malformed).calls.get? k = _
        rw [processCall_calls]
        dsimp only
        rw [settleCall_get?, hk]
        simp [hc]
      by_cases hpend : r.promise = .pending
      · have hset : ({ r with promise := settleIfPending r.promise (.rejected .parseFailure) } : CallRec).promise ≠ .pending := by
          rw [hpend]; intro hcontra; cases hcontra
        obtain ⟨r2, h2, hp2, _⟩ := runHandlers_settled t (processHandler c (.callH id) .malformed).1 .malformed k _ h1 hset
        exact ⟨r2, h2, by rw [hp2]⟩
      · have hset : ({ r with promise := settleIfPending r.promise (.rejected .parseFailure) } : CallRec).promise ≠ .pending := by
          cases hr : r.promise with
          | pending => exact absurd hr hpend
          | resolved v => simp [settleIfPending, hr]
          | rejected e => simp [settleIfPending, hr]
        obtain ⟨r2, h2, hp2, _⟩ := runHandlers_settled t (processHandler c (.callH id) .malformed).1 .malformed k _ h1 hset
        exact ⟨r2, h2, by rw [hp2]⟩
    · rcases List.mem_cons.mp hm with heq | hmem
      · exact absurd heq.symm hhid
      · have h1 : (processHandler c h .malformed).1.calls.get? k = some r := by
          cases h with
          | main =>
            show (processMain c .malformed).1.calls.get? k = some r
            rw [processMain_calls]
            exact hk
          | callH id2 =>
            show (processCall c id2 .malformed).calls.get? k = some r
            rw [processCall_calls]
            dsimp only
            rw [settleCall_get?, hk]
            have hne : r.cid ≠ some id2 := by
              rw [hc]
              intro hcontra
              apply hhid
              cases hcontra
              rfl
            simp [hne]
        exact ih _ k r id h1 hc hmem

/-! ### Remaining helper equations -/

theorem deliver_eq (c : GatewayClient) (i : Nat) (w : WsObj) (d : InData)
    (hw : c.wsStore.get? i = some w)
    (hrs : w.readyState = .opened ∨ w.readyState = .closing) :
    deliver c i d = runHandlers c w.handlers d := by
  unfold deliver
  rw [hw]
  dsimp only
  rw [if_pos hrs]

theorem closeEvent_eq (c : GatewayClient) (i : Nat) (w : WsObj)
    (hw : c.wsStore.get? i = some w) (hne : w.readyState ≠ .closed) :
    closeEvent c i =
      (scheduleReconnect { c with wsStore := updateWs c.wsStore i (fun w0 => { w0 with readyState := .closed }), connected := false },
        [Obs.logMsg "Gateway disconnected", Obs.emitDisconnected]) := by
  unfold closeEvent
  rw [hw]
  dsimp only
  rw [if_neg hne]

theorem scheduleReconnect_wsStore (c : GatewayClient) :
    (scheduleReconnect c).wsStore = c.wsStore := by
  unfold scheduleReconnect; split <;> rfl

theorem scheduleReconnect_ws (c : GatewayClient) :
    (scheduleReconnect c).ws = c.ws := by
  unfold scheduleReconnect; split <;> rfl

theorem timeoutFire_spec (c : GatewayClient) (k : Nat) (r : CallRec)
    (hk : c.calls.get? k = some r) (harm : r.timeoutArmed = true) :
    ∃ r', (timeoutFire c k).calls.get? k = some r' ∧
      r'.promise = settleIfPending r.promise (.rejected (.errMsg "Gateway call timeout")) ∧
      r'.timeoutArmed = false ∧ r'.cid = r.cid := by
  unfold timeoutFire
  rw [hk]
  dsimp only
  rw [if_pos harm]
  have hcalls : (match r.cid with
      | some id => offCurrent c id
      | none => c).calls = c.calls := by
    cases r.cid <;> simp [offCurrent_calls]
  dsimp only
  rw [hcalls]
  have hlt : k < c.calls.length := by
    rw [List.get?_eq_getElem?] at hk
    exact (List.getElem?_eq_some.mp hk).1
  refine ⟨{ r with promise := settleIfPending r.promise (.rejected (.errMsg "Gateway call timeout")), timeoutArmed := false }, ?_, rfl, rfl, rfl⟩
  simp [List.get?_eq_getElem?, List.getElem?_set_self hlt]

theorem timeoutFire_wsStore (c : GatewayClient) (k : Nat) (r : CallRec) (id : String)
    (hk : c.calls.get? k = some r) (hc : r.cid = some id) (harm : r.timeoutArmed = true) :
    (timeoutFire c k).wsStore = (offCurrent c id).wsStore := by
  unfold timeoutFire
  rw [hk]
  dsimp only
  rw [if_pos harm, hc]

theorem offCurrent_handlers (c : GatewayClient) (id : String) (j : Nat)
    (hj : c.ws = some j) :
    ((offCurrent c id).wsStore.get? j).map WsObj.handlers =
      (c.wsStore.get? j).map (fun w => removeHandler (Handler.callH id) w.handlers) := by
  unfold offCurrent
  rw [hj]
  dsimp only
  rw [updateWs_get?, if_pos rfl]
  cases c.wsStore.get? j <;> simp

theorem settleIfPending_rejected_isSettled (p : PromiseSt) (e : JsError) :
    (settleIfPending p (.rejected e)).isSettled = true := by
  cases p <;> rfl

theorem wsState_inv (c : GatewayClient) (j : Nat) (s : ReadyState)
    (h : wsState c j = some s) :
    ∃ w, c.wsStore.get? j = some w ∧ w.readyState = s := by
  unfold wsState at h
  cases hg : c.wsStore.get? j with
  | none => rw [hg] at h; cases h
  | some w =>
    rw [hg] at h
    simp at h
    exact ⟨w, rfl, h⟩

theorem sendsOf_append (a b : List Obs) : sendsOf (a ++ b) = sendsOf a ++ sendsOf b := by
  simp [sendsOf]

theorem cnt_zero_of_logs (os : List Obs) (h : ∀ o ∈ os, ∃ s, o = Obs.logMsg s) :
    cntSends os = 0 ∧ cntConnected os = 0 ∧ cntDisconnected os = 0 ∧
      cntError os = 0 ∧ cntForwards os = 0 := by
  induction os with
  | nil => exact ⟨rfl, rfl, rfl, rfl, rfl⟩
  | cons o t ih =>
    obtain ⟨s, rfl⟩ := h o (List.mem_cons_self o t)
    have ht := ih (fun o2 ho => h o2 (List.mem_cons_of_mem _ ho))
    simpa [cntSends, cntConnected, cntDisconnected, cntError, cntForwards] using ht

theorem connectParams_lookup_device (tk : Option String) (nonce : Json) :
    (connectParams tk nonce).lookup "device" = some (Json.obj [("nonce", nonce)]) := by
  cases tk with
  | none => rfl
  | some t => by_cases ht : t = "" <;> simp [connectParams, Json.lookup, ht]

/-! ### The claims -/

/-- C1 (counterexample): in a concrete run the transport closes (one
`disconnected` notification is emitted) while a `call()` with id `call-1` is
pending, and the call's promise is still pending afterwards — it was not
rejected with any error at close time, contradicting the claim that every
currently-pending call is rejected with a `ConnectionLost` error on
transport close. -/
theorem C1_counterexample :
    cntDisconnected (run demoClient traceClosePending).2 = 1 ∧
      ((run demoClient traceClosePending).1.calls.map (fun r => r.promise.isPending)) = [true] ∧
      ((run demoClient traceClosePending).1.calls.map CallRec.cid) = [some "call-1"] := by
  refine ⟨?_, ?_, ?_⟩ <;> decide

/-- C1 (amended): on any transport close (clean or error) the component drops
its connected flag and emits exactly a `disconnected` notification (plus a
log), and schedules a reconnect when the timer field is empty; but it does
NOT touch the pending calls: every call record — in particular every pending
promise — is left exactly as it was, so no pending `call()` is rejected at
close time (each is left to its own 30 s timeout). -/
theorem C1_close_behavior (c : GatewayClient) (i : Nat) (w : WsObj)
    (hw : c.wsStore.get? i = some w) (hne : w.readyState ≠ .closed) :
    (step c (.wsClose i)).1.connected = false ∧
    (step c (.wsClose i)).2 = [Obs.logMsg "Gateway disconnected", Obs.emitDisconnected] ∧
    (step c (.wsClose i)).1.calls = c.calls ∧
    (step c (.wsClose i)).1.reconnectTimer =
      (if c.reconnectTimer = .noTimer then .pendingT else c.reconnectTimer) ∧
    wsState (step c (.wsClose i)).1 i = some .closed := by
  have heq : step c (.wsClose i) = closeEvent c i := rfl
  rw [heq, closeEvent_eq c i w hw hne]
  refine ⟨scheduleReconnect_connected _, rfl, scheduleReconnect_calls _, ?_, ?_⟩
  · rw [scheduleReconnect_timer]
  · show wsState _ i = some .closed
    unfold wsState
    rw [scheduleReconnect_wsStore]
    dsimp only
    rw [updateWs_get?, if_pos rfl, hw]
    rfl

/-- C1 (witness): the close behavior applied to the concrete Ready state with
one pending call. -/
theorem C1_witness :
    (step (run demoClient tracePendingCall).1 (.wsClose 0)).1.connected = false ∧
      (step (run demoClient tracePendingCall).1 (.wsClose 0)).1.calls =
        (run demoClient tracePendingCall).1.calls := by
  have h := C1_close_behavior (run demoClient tracePendingCall).1 0
    { readyState := .opened, handlers := [Handler.main, Handler.callH "call-1"] }
    (by rfl) (by decide)
  exact ⟨h.1, h.2.2.1⟩

/-- C2: promises of `call()` settle one-shot and with correlation-id
isolation: (1) a settled call promise never changes again under any further
turns; (2) once a call's 30 s timeout fires, its promise is settled — so
every call settles exactly once; (3) a pending call can resolve only through
a delivered response bearing the call's own correlation id, with exactly that
response's payload; (4) a pending call can reject with a response-carried
error only through a delivered non-ok response bearing its own id, with that
response's error; (5) in every run from a fresh client the allocated
correlation ids are pairwise distinct (fresh monotonic counter, decimal
rendering injective). -/
theorem C2_call_isolation :
    (∀ (acts : List Act) (c : GatewayClient) (k : Nat) (r : CallRec),
        c.calls.get? k = some r → r.promise ≠ .pending →
        ∃ r', (run c acts).1.calls.get? k = some r' ∧ r'.promise = r.promise ∧
          r'.cid = r.cid) ∧
    (∀ (c : GatewayClient) (k : Nat) (r : CallRec),
        c.calls.get? k = some r → r.timeoutArmed = true →
        ∃ r', (step c (.callTimeout k)).1.calls.get? k = some r' ∧
          r'.promise.isSettled = true) ∧
    (∀ (c : GatewayClient) (a : Act) (k : Nat) (r r' : CallRec) (v : Option Json),
        c.calls.get? k = some r → (step c a).1.calls.get? k = some r' →
        r.promise = .pending → r'.promise = .resolved v →
        ∃ i m, a = .wsDeliver i (.msg m) ∧ m.type = some "res" ∧ m.id = r.cid ∧
          m.ok = some true ∧ m.payload = v) ∧
    (∀ (c : GatewayClient) (a : Act) (k : Nat) (r r' : CallRec) (e : Option Json),
        c.calls.get? k = some r → (step c a).1.calls.get? k = some r' →
        r.promise = .pending → r'.promise = .rejected (.respErr e) →
        ∃ i m, a = .wsDeliver i (.msg m) ∧ m.type = some "res" ∧ m.id = r.cid ∧
          m.ok ≠ some true ∧ m.error = e) ∧
    (∀ (u : String) (tk : Option String) (acts : List Act),
        ((run (init u tk) acts).1.cids).Pairwise (· ≠ ·)) := by
  refine ⟨run_settled, ?_, ?_, ?_, ?_⟩
  · intro c k r hk harm
    obtain ⟨r', h1, h2, _, _⟩ := timeoutFire_spec c k r hk harm
    exact ⟨r', h1, by rw [h2]; exact settleIfPending_rejected_isSettled _ _⟩
  · intro c a k r r' v hk hk' hp hr
    obtain ⟨r2, h2k, h2c, h2p, h2res, _⟩ := step_callRec c a k r hk
    rw [hk'] at h2k
    cases h2k
    exact h2res v hp hr
  · intro c a k r r' e hk hk' hp hr
    obtain ⟨r2, h2k, h2c, h2p, _, h2rej⟩ := step_callRec c a k r hk
    rw [hk'] at h2k
    cases h2k
    exact h2rej e hp hr
  · intro u tk acts
    exact (run_CidInv_aux acts (init u tk) (init_CidInv u tk)).2

/-- C2 (witness): in the out-of-order scenario the first call (id `call-1`,
issued before `call-2` whose response arrived first) resolves, and the
isolation theorem attributes the resolution to a delivered response bearing
exactly `call-1` and its payload. -/
theorem C2_witness :
    ∃ i m, Act.wsDeliver 0 respA = Act.wsDeliver i (InData.msg m) ∧
      m.type = some "res" ∧
      m.id = (⟨some "call-1", some 0, .pending, true⟩ : CallRec).cid ∧
      m.ok = some true ∧ m.payload = some (.str "A") := by
  exact C2_call_isolation.2.2.1
    (run demoClient (readyTrace ++ [.apiCall "a" .null, .apiCall "b" .null, .wsDeliver 0 respB])).1
    (.wsDeliver 0 respA) 0
    ⟨some "call-1", some 0, .pending, true⟩
    ⟨some "call-1", some 0, .resolved (some (.str "A")), true⟩
    (some (.str "A")) (by rfl) (by rfl) rfl rfl

/-- C3 (counterexample): `disconnect()` is called, then the close event it
caused arrives — and a reconnect timer IS scheduled by that close (and, when
it fires, `connect()` runs again and creates a second socket), contradicting
the claim that the automatic reconnect after the resulting close is
suppressed. -/
theorem C3_counterexample :
    (run demoClient traceDisconnectClose).1.reconnectTimer = .pendingT ∧
      cntDisconnected (run demoClient traceDisconnectClose).2 = 1 ∧
      (run demoClient (traceDisconnectClose ++ [.reconnectTimerFire])).1.wsStore.length = 2 := by
  refine ⟨?_, ?_, ?_⟩ <;> decide

/-- C3 (amended): `disconnect()` clears the reconnect-timer field, drops the
connected flag, forgets and closes the current socket (readyState becomes
CLOSING when it was CONNECTING or OPEN), leaves the calls untouched, and is
idempotent; but it does not suppress the reconnect scheduled later by the
close event that the `close()` call provokes. -/
theorem C3_disconnect_behavior (c : GatewayClient) :
    (disconnect c).reconnectTimer = .noTimer ∧
    (disconnect c).connected = false ∧
    (disconnect c).ws = none ∧
    (disconnect c).calls = c.calls ∧
    disconnect (disconnect c) = disconnect c ∧
    (∀ j w, c.ws = some j → c.wsStore.get? j = some w →
      (w.readyState = .opened ∨ w.readyState = .connecting) →
      wsState (disconnect c) j = some .closing) := by
  obtain ⟨store, ws, timer, conn, rid, tok, u, cs⟩ := c
  cases ws with
  | none =>
    refine ⟨rfl, rfl, rfl, rfl, rfl, ?_⟩
    intro j w hj hw hrs
    cases hj
  | some j0 =>
    refine ⟨rfl, rfl, rfl, rfl, rfl, ?_⟩
    intro j w hj hw hrs
    cases hj
    show wsState _ j0 = some .closing
    unfold wsState
    show ((updateWs store j0 closeMethod).get? j0).map WsObj.readyState = some .closing
    rw [updateWs_get?, if_pos rfl, hw]
    rcases hrs with h | h <;> simp [closeMethod, h]

/-- C3 (witness): `disconnect()` on a concrete open client — idempotent, and
the socket moved to CLOSING. -/
theorem C3_witness :
    disconnect (disconnect (run demoClient [.apiConnect, .wsOpen 0]).1) =
      disconnect (run demoClient [.apiConnect, .wsOpen 0]).1 ∧
    wsState (disconnect (run demoClient [.apiConnect, .wsOpen 0]).1) 0 = some .closing := by
  have h := C3_disconnect_behavior (run demoClient [.apiConnect, .wsOpen 0]).1
  exact ⟨h.2.2.2.2.1, h.2.2.2.2.2 0 { readyState := .opened, handlers := [Handler.main] }
    rfl (by rfl) (Or.inl rfl)⟩

/-- C4: after the first reconnect timer fires, the stale handle is never
cleared, so a later unexpected close schedules no new reconnect timer: in the
concrete run two closes happen (two `disconnected` emissions), the timer
field holds a fired handle, and no reactive turn other than `disconnect()`
can ever change that — the component has stopped retrying, contradicting the
claim that it schedules a reconnect after every unexpected close and retries
indefinitely. -/
theorem C4_staleReconnectTimer :
    (run demoClient traceStaleTimer).1.reconnectTimer = .firedT ∧
    cntDisconnected (run demoClient traceStaleTimer).2 = 2 ∧
    (∀ a : Act, a ≠ .apiDisconnect →
      (step (run demoClient traceStaleTimer).1 a).1.reconnectTimer = .firedT) := by
  refine ⟨by decide, by decide, ?_⟩
  intro a ha
  exact fired_sticky _ a (by decide) ha

/-- C4 (witness): the stuck state stays stuck under a further `connect()`
attempt. -/
theorem C4_witness :
    (step (run demoClient traceStaleTimer).1 .apiConnect).1.reconnectTimer = .firedT :=
  C4_staleReconnectTimer.2.2 .apiConnect (fun h => Act.noConfusion h)

/-- C5 (counterexample): a malformed frame arrives while a `call()` is
pending, and the call's promise settles — rejected with the parse error — 
contradicting the claim that a malformed message never settles a pending
call's promise. -/
theorem C5_counterexample :
    ((run demoClient traceMalformed).1.calls.map fun r => r.promise.isParseRejected) = [true] ∧
      cntDisconnected (run demoClient traceMalformed).2 = 0 := by
  exact ⟨by decide, by decide⟩

/-- C5 (amended): the main listener logs and discards a malformed frame (no
state change at all); delivering a malformed frame never closes a socket,
never changes the connected flag or the reconnect timer, and emits nothing
but logs; but every pending call whose listener is on the delivering socket
is rejected with the parse error by its own listener. -/
theorem C5_malformed_behavior (c : GatewayClient) (i : Nat) :
    (processMain c .malformed = (c, [Obs.logMsg "Failed to parse Gateway message:"])) ∧
    (∀ j, wsState (step c (.wsDeliver i .malformed)).1 j = wsState c j) ∧
    (step c (.wsDeliver i .malformed)).1.connected = c.connected ∧
    (step c (.wsDeliver i .malformed)).1.reconnectTimer = c.reconnectTimer ∧
    (cntSends (step c (.wsDeliver i .malformed)).2 = 0 ∧
      cntConnected (step c (.wsDeliver i .malformed)).2 = 0 ∧
      cntDisconnected (step c (.wsDeliver i .malformed)).2 = 0 ∧
      cntError (step c (.wsDeliver i .malformed)).2 = 0) ∧
    (∀ w k r id, c.wsStore.get? i = some w →
      (w.readyState = .opened ∨ w.readyState = .closing) →
      c.calls.get? k = some r → r.cid = some id → Handler.callH id ∈ w.handlers →
      r.promise = .pending →
      ∃ r', (step c (.wsDeliver i .malformed)).1.calls.get? k = some r' ∧
        r'.promise = .rejected .parseFailure) := by
  have hstep : step c (.wsDeliver i .malformed) = deliver c i .malformed := rfl
  have hobs : ∀ o ∈ (deliver c i .malformed).2, ∃ s, o = Obs.logMsg s := by
    unfold deliver
    cases hg : c.wsStore.get? i with
    | none => intro o ho; cases ho
    | some w =>
      dsimp only
      by_cases hrs : w.readyState = .opened ∨ w.readyState = .closing
      · rw [if_pos hrs]
        intro o ho
        exact ⟨_, runHandlers_malformed_obs w.handlers c o ho⟩
      · rw [if_neg hrs]
        intro o ho
        cases ho
  obtain ⟨hc1, hc2, hc3, hc4, _⟩ := cnt_zero_of_logs _ hobs
  refine ⟨rfl, ?_, ?_, ?_, ⟨by rw [hstep]; exact hc1, by rw [hstep]; exact hc2,
    by rw [hstep]; exact hc3, by rw [hstep]; exact hc4⟩, ?_⟩
  · intro j
    rw [hstep]
    show wsState (deliver c i .malformed).1 j = wsState c j
    unfold deliver
    cases hg : c.wsStore.get? i with
    | none => rfl
    | some w =>
      dsimp only
      by_cases hrs : w.readyState = .opened ∨ w.readyState = .closing
      · rw [if_pos hrs]
        exact runHandlers_malformed_wsState w.handlers c j
      · rw [if_neg hrs]
  · rw [hstep]
    show (deliver c i .malformed).1.connected = c.connected
    unfold deliver
    cases hg : c.wsStore.get? i with
    | none => rfl
    | some w =>
      dsimp only
      by_cases hrs : w.readyState = .opened ∨ w.readyState = .closing
      · rw [if_pos hrs]
        exact runHandlers_malformed_connected w.handlers c
      · rw [if_neg hrs]
  · rw [hstep]
    show (deliver c i .malformed).1.reconnectTimer = c.reconnectTimer
    unfold deliver
    cases hg : c.wsStore.get? i with
    | none => rfl
    | some w =>
      dsimp only
      by_cases hrs : w.readyState = .opened ∨ w.readyState = .closing
      · rw [if_pos hrs]
        exact runHandlers_reconnectTimer w.handlers c .malformed
      · rw [if_neg hrs]
  · intro w k r id hw hrs hk hc hmem hp
    rw [hstep, deliver_eq c i w .malformed hw hrs]
    obtain ⟨r', h1, h2⟩ := runHandlers_malformed_rejects w.handlers c k r id hk hc hmem
    exact ⟨r', h1, by rw [h2, hp]; rfl⟩

/-- C5 (witness): the malformed-frame behavior applied at the concrete Ready
state with a pending call with id `call-1`. -/
theorem C5_witness :
    ∃ r', (step (run demoClient tracePendingCall).1 (.wsDeliver 0 .malformed)).1.calls.get? 0 =
        some r' ∧ r'.promise = .rejected .parseFailure := by
  exact (C5_malformed_behavior (run demoClient tracePendingCall).1 0).2.2.2.2.2
    { readyState := .opened, handlers := [Handler.main, Handler.callH "call-1"] }
    0 ⟨some "call-1", some 0, .pending, true⟩ "call-1" (by rfl) (Or.inl rfl) (by rfl) rfl
    (by decide) rfl

/-- C6: when the 30 s timeout of a pending call fires, the call's promise is
rejected with the `Gateway call timeout` error and its timeout is disarmed;
the call's listener is removed from the current socket; and under every
further sequence of reactive turns — in particular a late response arriving
for the same correlation id — the promise stays exactly that rejection (the
late response is dropped without re-settling the call). -/
theorem C6_timeout_drops_late (c : GatewayClient) (k : Nat) (r : CallRec) (id : String)
    (hk : c.calls.get? k = some r) (hc : r.cid = some id)
    (harm : r.timeoutArmed = true) (hp : r.promise = .pending) :
    (∃ r', (step c (.callTimeout k)).1.calls.get? k = some r' ∧
      r'.promise = .rejected (.errMsg "Gateway call timeout") ∧ r'.timeoutArmed = false) ∧
    (∀ j, c.ws = some j →
      ((step c (.callTimeout k)).1.wsStore.get? j).map WsObj.handlers =
        (c.wsStore.get? j).map (fun w => removeHandler (Handler.callH id) w.handlers)) ∧
    (∀ acts, ∃ r2, (run (step c (.callTimeout k)).1 acts).1.calls.get? k = some r2 ∧
      r2.promise = .rejected (.errMsg "Gateway call timeout")) := by
  have hstep : (step c (.callTimeout k)).1 = timeoutFire c k := rfl
  obtain ⟨r', h1, h2, h3, h4⟩ := timeoutFire_spec c k r hk harm
  have h2' : r'.promise = .rejected (.errMsg "Gateway call timeout") := by
    rw [h2, hp]; rfl
  refine ⟨⟨r', by rw [hstep]; exact h1, h2', h3⟩, ?_, ?_⟩
  · intro j hj
    rw [hstep, timeoutFire_wsStore c k r id hk hc harm]
    exact offCurrent_handlers c id j hj
  · intro acts
    obtain ⟨r2, hr2, hrp, _⟩ := run_settled acts (step c (.callTimeout k)).1 k r'
      (by rw [hstep]; exact h1) (by rw [h2']; intro hcontra; cases hcontra)
    exact ⟨r2, hr2, by rw [hrp, h2']⟩

/-- C6 (witness): the timeout fires for the concrete pending call `call-1`,
then a response for `call-1` arrives late: the promise is still the timeout
rejection. -/
theorem C6_witness :
    ∃ r2, (run (step (run demoClient tracePendingCall).1 (.callTimeout 0)).1
        [.wsDeliver 0 respA]).1.calls.get? 0 = some r2 ∧
      r2.promise = .rejected (.errMsg "Gateway call timeout") := by
  exact (C6_timeout_drops_late (run demoClient tracePendingCall).1 0
    ⟨some "call-1", some 0, .pending, true⟩ "call-1" (by rfl) rfl rfl rfl).2.2
    [.wsDeliver 0 respA]

/-- C7 (counterexample): in a concrete run the handshake `connect` response
arrives with `ok=false` (the branch demonstrably ran: the socket moved to
CLOSING and the client never became connected) — yet no `error` notification
was emitted anywhere in the run, contradicting the claim that the component
emits an `error` notification carrying the structured error. -/
theorem C7_counterexample :
    cntError (run demoClient traceBadHandshake).2 = 0 ∧
      cntConnected (run demoClient traceBadHandshake).2 = 0 ∧
      wsState (run demoClient traceBadHandshake).1 0 = some .closing ∧
      (run demoClient traceBadHandshake).1.connected = false := by
  refine ⟨?_, ?_, ?_, ?_⟩ <;> decide

/-- C7 (amended): on a handshake `connect` response with a falsy `ok` the
component only logs the failure and calls `close()` on its current socket —
no `error` notification is emitted and no `connected` notification fires,
the connected flag is unchanged (never set), the current open socket moves
to CLOSING, and the resulting close event then drops the connected flag and
emits `disconnected` — so the component ends Disconnected and never
Ready. -/
theorem C7_handshake_reject (c : GatewayClient) (i : Nat) (w : WsObj)
    (hs0 : List Handler) (m : GatewayMessage)
    (hw : c.wsStore.get? i = some w)
    (hrs : w.readyState = .opened ∨ w.readyState = .closing)
    (hh : w.handlers = Handler.main :: hs0) (hnm : ∀ h ∈ hs0, h ≠ Handler.main)
    (ht : m.type = some "res") (hm : m.method = some "connect")
    (hok : m.ok ≠ some true) :
    cntError (step c (.wsDeliver i (.msg m))).2 = 0 ∧
    cntConnected (step c (.wsDeliver i (.msg m))).2 = 0 ∧
    (step c (.wsDeliver i (.msg m))).1.connected = c.connected ∧
    (∀ j, c.ws = some j → wsState c j = some .opened →
      wsState (step c (.wsDeliver i (.msg m))).1 j = some .closing) ∧
    (∀ j, c.ws = some j → wsState c j = some .opened →
      (step (step c (.wsDeliver i (.msg m))).1 (.wsClose j)).1.connected = false ∧
        cntDisconnected (step (step c (.wsDeliver i (.msg m))).1 (.wsClose j)).2 = 1) := by
  have hstep : step c (.wsDeliver i (.msg m)) = deliver c i (.msg m) := rfl
  have hpm : processHandler c Handler.main (.msg m) =
      (closeCurrentWs c,
        [Obs.logMsg "Gateway message:", Obs.logMsg "Gateway handshake failed:"]) :=
    processMain_res_bad_eq c m ht hm hok
  rw [hstep, deliver_eq c i w _ hw hrs, hh, runHandlers_cons, hpm]
  dsimp only
  rw [runHandlers_obs_noMain hs0 hnm]
  have hwsj : ∀ j, c.ws = some j → wsState c j = some .opened →
      wsState (runHandlers (closeCurrentWs c) hs0 (.msg m)).1 j = some .closing := by
    intro j hj ho
    rw [runHandlers_wsState_noMain hs0 hnm]
    exact closeCurrentWs_wsState_current c j hj ho
  refine ⟨rfl, rfl, ?_, hwsj, ?_⟩
  · rw [runHandlers_connected_noMain hs0 hnm, closeCurrentWs_connected]
  · intro j hj ho
    obtain ⟨w2, hw2, hrs2⟩ := wsState_inv _ j .closing (hwsj j hj ho)
    have hne2 : w2.readyState ≠ .closed := by rw [hrs2]; intro hx; cases hx
    have hce : step (runHandlers (closeCurrentWs c) hs0 (.msg m)).1 (.wsClose j) =
        closeEvent (runHandlers (closeCurrentWs c) hs0 (.msg m)).1 j := rfl
    rw [hce, closeEvent_eq _ j w2 hw2 hne2]
    exact ⟨scheduleReconnect_connected _, rfl⟩

/-- C7 (witness): the rejected handshake applied to the concrete state just
after the challenge was answered. -/
theorem C7_witness :
    cntError (step (run demoClient [.apiConnect, .wsOpen 0, .wsDeliver 0 challengeMsg]).1
        (.wsDeliver 0 (.msg { type := some "res", method := some "connect", ok := some false, error := some (.str "denied") }))).2 = 0 ∧
      wsState (step (run demoClient [.apiConnect, .wsOpen 0, .wsDeliver 0 challengeMsg]).1
        (.wsDeliver 0 (.msg { type := some "res", method := some "connect", ok := some false, error := some (.str "denied") }))).1 0 = some .closing := by
  have h := C7_handshake_reject (run demoClient [.apiConnect, .wsOpen 0, .wsDeliver 0 challengeMsg]).1
    0 { readyState := .opened, handlers := [Handler.main] } []
    { type := some "res", method := some "connect", ok := some false, error := some (.str "denied") }
    (by rfl) (Or.inl rfl) rfl (by simp) rfl rfl (by decide)
  exact ⟨h.1, h.2.2.2.1 0 rfl (by rfl)⟩

/-- C8 (counterexample): a duplicate successful `connect` response after a
completed handshake is not dropped: in the concrete run with exactly one
handshake and one duplicate response, the `connected` notification fires
twice — contradicting the claim that the duplicate is a no-op and
`connected` fires exactly once. -/
theorem C8_counterexample :
    cntConnected (run demoClient traceDupConnect).2 = 2 := by decide

/-- C8 (amended): every delivered `connect` response with `ok=true` is
processed afresh: it sets the connected flag and emits exactly one
`connected` notification — also when the handshake had already completed.
Hence `connected` fires exactly once per such response (and exactly once for
a single successful handshake), but duplicates are re-emitted rather than
dropped. -/
theorem C8_connected_per_response (c : GatewayClient) (i : Nat) (w : WsObj)
    (hs0 : List Handler) (m : GatewayMessage)
    (hw : c.wsStore.get? i = some w)
    (hrs : w.readyState = .opened ∨ w.readyState = .closing)
    (hh : w.handlers = Handler.main :: hs0) (hnm : ∀ h ∈ hs0, h ≠ Handler.main)
    (ht : m.type = some "res") (hm : m.method = some "connect")
    (hok : m.ok = some true) :
    cntConnected (step c (.wsDeliver i (.msg m))).2 = 1 ∧
    (step c (.wsDeliver i (.msg m))).1.connected = true := by
  have hstep : step c (.wsDeliver i (.msg m)) = deliver c i (.msg m) := rfl
  have hpm : processHandler c Handler.main (.msg m) =
      ({ c with connected := true },
        [Obs.logMsg "Gateway message:", Obs.logMsg "Gateway handshake successful",
          Obs.emitConnected]) :=
    processMain_res_ok_eq c m ht hm hok
  rw [hstep, deliver_eq c i w _ hw hrs, hh, runHandlers_cons, hpm]
  dsimp only
  rw [runHandlers_obs_noMain hs0 hnm, runHandlers_connected_noMain hs0 hnm]
  exact ⟨rfl, rfl⟩

/-- C8 (witness): a duplicate `ok=true` connect response delivered to the
already-Ready concrete client emits `connected` once more. -/
theorem C8_witness :
    cntConnected (step (run demoClient readyTrace).1
        (.wsDeliver 0 (.msg { type := some "res", method := some "connect", ok := some true }))).2 = 1 ∧
      (step (run demoClient readyTrace).1
        (.wsDeliver 0 (.msg { type := some "res", method := some "connect", ok := some true }))).1.connected = true := by
  exact C8_connected_per_response (run demoClient readyTrace).1 0
    { readyState := .opened, handlers := [Handler.main] } []
    { type := some "res", method := some "connect", ok := some true }
    (by rfl) (Or.inl rfl) rfl (by simp) rfl rfl rfl

/-- C9 (counterexample): an inbound `connect.challenge` is delivered on the
old socket right after `disconnect()` (so `this.ws` is `null`): the whole
run sends nothing at all — the challenge triggered zero outbound `connect`
requests (it is still never forwarded), contradicting the claim that every
challenge triggers exactly one outbound `connect` request. -/
theorem C9_counterexample :
    cntSends (run demoClient traceChallengeDropped).2 = 0 ∧
      cntForwards (run demoClient traceChallengeDropped).2 = 0 := by
  exact ⟨by decide, by decide⟩

/-- C9 (amended): an inbound `connect.challenge` event is consumed internally
— never forwarded on the any-message channel nor under its own name — and
triggers at most one outbound `connect` request: exactly one, echoing the
challenge nonce in `device.nonce`, when `this.ws` is an open socket at that
moment, and none otherwise. -/
theorem C9_challenge_behavior (c : GatewayClient) (i : Nat) (w : WsObj)
    (hs0 : List Handler) (m : GatewayMessage)
    (hw : c.wsStore.get? i = some w)
    (hrs : w.readyState = .opened ∨ w.readyState = .closing)
    (hh : w.handlers = Handler.main :: hs0) (hnm : ∀ h ∈ hs0, h ≠ Handler.main)
    (ht : m.type = some "event") (he : m.event = some "connect.challenge") :
    cntForwards (step c (.wsDeliver i (.msg m))).2 = 0 ∧
    (currentOpen c = false → cntSends (step c (.wsDeliver i (.msg m))).2 = 0) ∧
    (∀ j, c.ws = some j → currentOpen c = true →
      sendsOf (step c (.wsDeliver i (.msg m))).2 =
        [(j, "req-" ++ Nat.repr c.requestId, "connect",
          connectParams c.token (challengeNonce m.payload))]) ∧
    (connectParams c.token (challengeNonce m.payload)).lookup "device" =
      some (.obj [("nonce", challengeNonce m.payload)]) := by
  have hstep : step c (.wsDeliver i (.msg m)) = deliver c i (.msg m) := rfl
  have hpm : processHandler c Handler.main (.msg m) =
      ((sendRequest c "connect" (connectParams c.token (challengeNonce m.payload))).1,
        Obs.logMsg "Gateway message:" ::
          Obs.logMsg "Received challenge, sending connect with nonce..." ::
            (sendRequest c "connect" (connectParams c.token (challengeNonce m.payload))).2) :=
    processMain_challenge_eq c m ht he
  rw [hstep, deliver_eq c i w _ hw hrs, hh, runHandlers_cons, hpm]
  dsimp only
  rw [runHandlers_obs_noMain hs0 hnm, List.append_nil]
  refine ⟨?_, ?_, ?_, connectParams_lookup_device _ _⟩
  · rw [sendRequest_snd]
    split <;> rfl
  · intro hno
    rw [sendRequest_snd]
    simp [hno, cntSends]
  · intro j hj hyes
    rw [sendRequest_snd]
    simp [hyes, hj, sendsOf]

/-- C9 (witness): a challenge delivered on the open current socket of the
concrete client produces exactly the one `connect` request. -/
theorem C9_witness :
    sendsOf (step (run demoClient [.apiConnect, .wsOpen 0]).1 (.wsDeliver 0 challengeMsg)).2 =
      [(0, "req-" ++ Nat.repr (run demoClient [.apiConnect, .wsOpen 0]).1.requestId, "connect",
        connectParams (run demoClient [.apiConnect, .wsOpen 0]).1.token
          (challengeNonce (some (.obj [("nonce", .str "abc")]))))] := by
  exact (C9_challenge_behavior (run demoClient [.apiConnect, .wsOpen 0]).1 0
    { readyState := .opened, handlers := [Handler.main] } []
    { type := some "event", event := some "connect.challenge",
      payload := some (.obj [("nonce", .str "abc")]) }
    (by rfl) (Or.inl rfl) rfl (by simp) rfl rfl).2.2.1 0 rfl (by decide)

/-- C10: when `this.ws?.readyState` is not OPEN at the moment `sendRequest`
runs, nothing happens at all: no frame is sent, no error is reported, no
state changes (the request counter does not even advance) — which is how the
handshake `connect` reply to a challenge can be silently dropped. -/
theorem C10_silentDrop (c : GatewayClient) (method : String) (params : Json)
    (h : currentOpen c = false) :
    sendRequest c method params = (c, []) :=
  sendRequest_not_open c method params h

/-- C10 (witness): after `disconnect()` the concrete client has no open
current socket, and `sendRequest` of a `connect` reply is exactly a no-op on
it. -/
theorem C10_witness :
    currentOpen (run demoClient [.apiConnect, .wsOpen 0, .apiDisconnect]).1 = false ∧
      sendRequest (run demoClient [.apiConnect, .wsOpen 0, .apiDisconnect]).1 "connect" Json.null =
        ((run demoClient [.apiConnect, .wsOpen 0, .apiDisconnect]).1, []) :=
  ⟨by decide, C10_silentDrop _ "connect" Json.null (by decide)⟩

end GatewayClient
